import Mathlib

/-!
# `oslconfig.h`: capability resolution and the assertion macros

A shallow embedding of `src/include/OSL/oslconfig.h`.

The header is a sequence of preprocessor directives.  Its state is the table of
macros it reads or writes, modelled by the record `Env`; every conditional
group of the header becomes one state-passing function on `Env`, in source
order, and `resolve` runs them all.  The only directive that can stop the
translation is the `#error` of the language-standard group, so `resolve`
returns `Except String Env`.

The assertion macros have behaviour at run time.  Their replacement lists are
kept as tokens in `Env`; what an invocation does is given by the functions
`OSL_ASSERT`, `OSL_ASSERT_MSG`, `OSL_DASSERT` and `OSL_DASSERT_MSG`, which read
the bindings of the environment the macro is expanded in.
-/

namespace OSL

/-! ## Macro table -/

/-- A macro definition: its parameter list (`none` for an object-like macro) and
its replacement list, one string per preprocessing token. -/
structure MacroDef where
  params : Option (List String)
  body : List String
deriving DecidableEq, Repr

/-- Object-like definition `#define NAME body`. -/
def obj (body : List String) : MacroDef := ⟨none, body⟩

/-- Function-like definition `#define NAME(params) body`. -/
def fn (params body : List String) : MacroDef := ⟨some params, body⟩

/-- A capability query usable in `#if` (`__has_cpp_attribute`, `__has_attribute`,
`__has_include`): either provided by the compiler, with the value it reports for
the attribute `deprecated` (the only argument the header ever passes), or the
header's own fallback `#define __has_xxx(x) 0`. -/
inductive Query where
  | builtin (deprecated : Int)
  | zero
deriving DecidableEq, Repr

/-- Value of `q(deprecated)` inside `#if`. -/
def Query.deprecated : Query → Int
  | .builtin v => v
  | .zero => 0

/-- The macros the header reads or writes.  Macros the header tests by value
carry an integer (`none`: not defined), macros it tests only with
`#ifdef`/`defined` carry a flag, macros it defines carry their definition.
`redefined` lists the names a `#define` rebound to a different replacement list
(a diagnosed redefinition; gcc, clang and MSVC then use the new definition), and
`once` records that `#pragma once` has already been seen for this file. -/
structure Env where
  __cplusplus : Option Int
  _MSC_VER : Option Int
  __CUDACC__ : Bool
  __CUDA_ARCH__ : Bool
  __GNUC__ : Bool
  __clang__ : Bool
  __PRETTY_FUNCTION__ : Bool
  __FUNCSIG__ : Bool
  NDEBUG : Bool
  __has_cpp_attribute : Option Query
  __has_attribute : Option Query
  __has_include : Option Query
  OSL_CPLUSPLUS_VERSION : Option Int
  OSL_CONSTEXPR14 : Option MacroDef
  OSL_CONSTEXPR17 : Option MacroDef
  OSL_CONSTEXPR20 : Option MacroDef
  OSL_HOSTDEVICE : Option MacroDef
  OSL_DEVICE : Option MacroDef
  OSL_CONSTANT_DATA : Option MacroDef
  OIIO_USE_FMT : Option Int
  OSL_DEPRECATED : Option MacroDef
  OSL_ALIGNAS : Option MacroDef
  OSL_PRETTY_FUNCTION : Option MacroDef
  OSL_ABORT_IF_DEBUG : Option MacroDef
  OSL_ASSERT : Option MacroDef
  OSL_ASSERT_MSG : Option MacroDef
  OSL_DASSERT : Option MacroDef
  OSL_DASSERT_MSG : Option MacroDef
  redefined : List String
  once : Bool
deriving DecidableEq, Repr

/-- Value of an identifier inside `#if`: its integer value, or `0` when it is not
defined. -/
def ppValue (m : Option Int) : Int := m.getD 0

/-- The bookkeeping of `#define name new`: when `name` is already bound to a
different definition the redefinition is recorded; an identical redefinition and
a first definition record nothing. -/
def noteRedefinition {α : Type} [DecidableEq α] (name : String) (old : Option α) (new : α)
    (log : List String) : List String :=
  match old with
  | some d => if d = new then log else log ++ [name]
  | none => log

/-! ## Definitions the header can select -/

/-- Replacement list `constexpr`. -/
def kwConstexpr : MacroDef := obj ["constexpr"]

/-- Empty replacement list. -/
def emptyExpansion : MacroDef := obj []

/-- Definition `[[deprecated(msg)]]` of `OSL_DEPRECATED(msg)`. -/
def deprecatedStd : MacroDef :=
  fn ["msg"] ["[", "[", "deprecated", "(", "msg", ")", "]", "]"]

/-- Definition `__attribute__((deprecated(msg)))` of `OSL_DEPRECATED(msg)`. -/
def deprecatedGnu : MacroDef :=
  fn ["msg"] ["__attribute__", "(", "(", "deprecated", "(", "msg", ")", ")", ")"]

/-- Definition `__declspec(deprecated(msg))` of `OSL_DEPRECATED(msg)`. -/
def deprecatedMsvc : MacroDef :=
  fn ["msg"] ["__declspec", "(", "deprecated", "(", "msg", ")", ")"]

/-- Empty definition of `OSL_DEPRECATED(msg)`. -/
def deprecatedNone : MacroDef := fn ["msg"] []

/-- Definition `__attribute__((aligned(size)))` of `OSL_ALIGNAS(size)`. -/
def alignasGnu : MacroDef :=
  fn ["size"] ["__attribute__", "(", "(", "aligned", "(", "size", ")", ")", ")"]

/-- Definition `alignas(size)` of `OSL_ALIGNAS(size)`. -/
def alignasStd : MacroDef := fn ["size"] ["alignas", "(", "size", ")"]

/-- Definition `abort()` of `OSL_ABORT_IF_DEBUG`. -/
def abortCall : MacroDef := obj ["abort", "(", ")"]

/-- Definition `(void)0` of `OSL_ABORT_IF_DEBUG`. -/
def voidZero : MacroDef := obj ["(", "void", ")", "0"]

/-- Format string of the diagnostic of `OSL_ASSERT`. -/
def assertFormat : String := "%s:%u: %s: Assertion '%s' failed.\n"

/-- First string literal of the format of `OSL_ASSERT_MSG`; the macro pastes the
user's `msg` and `"\n"` after it. -/
def assertMsgFormat : String := "%s:%u: %s: Assertion '%s' failed: "

/-- Definition of `OSL_ASSERT(x)`, lines 225-230. -/
def assertDef : MacroDef :=
  fn ["x"]
    ["(", "OIIO_LIKELY", "(", "x", ")", "?", "(", "(", "void", ")", "0", ")", ":",
     "(", "std", "::", "fprintf", "(", "stderr", ",",
     "\"%s:%u: %s: Assertion '%s' failed.\\n\"", ",",
     "__FILE__", ",", "__LINE__", ",", "OSL_PRETTY_FUNCTION", ",", "#", "x", ")", ",",
     "OSL_ABORT_IF_DEBUG", ")", ")"]

/-- Definition of `OSL_ASSERT_MSG(x, msg, ...)`, lines 231-237. -/
def assertMsgDef : MacroDef :=
  fn ["x", "msg", "..."]
    ["(", "OIIO_LIKELY", "(", "x", ")", "?", "(", "(", "void", ")", "0", ")", ":",
     "(", "std", "::", "fprintf", "(", "stderr", ",",
     "\"%s:%u: %s: Assertion '%s' failed: \"", "msg", "\"\\n\"", ",",
     "__FILE__", ",", "__LINE__", ",", "OSL_PRETTY_FUNCTION", ",", "#", "x", ",",
     "__VA_ARGS__", ")", ",",
     "OSL_ABORT_IF_DEBUG", ")", ")"]

/-- Replacement list `((void)sizeof(x))` of the release-mode debug-only checks. -/
def sizeofBody : List String := ["(", "(", "void", ")", "sizeof", "(", "x", ")", ")"]

/-! ## The conditional groups of the header, in source order -/

/-- The four `#define`s shared by the three successful branches of lines 47-61. -/
def bindStandard (version : Int) (c14 c17 c20 : MacroDef) (e : Env) : Env :=
  { e with
    OSL_CPLUSPLUS_VERSION := some version
    OSL_CONSTEXPR14 := some c14
    OSL_CONSTEXPR17 := some c17
    OSL_CONSTEXPR20 := some c20
    redefined :=
      noteRedefinition "OSL_CONSTEXPR20" e.OSL_CONSTEXPR20 c20
        (noteRedefinition "OSL_CONSTEXPR17" e.OSL_CONSTEXPR17 c17
          (noteRedefinition "OSL_CONSTEXPR14" e.OSL_CONSTEXPR14 c14
            (noteRedefinition "OSL_CPLUSPLUS_VERSION" e.OSL_CPLUSPLUS_VERSION version
              e.redefined))) }

/-- Lines 47-64: the language-standard probe. -/
def languageStandard (e : Env) : Except String Env :=
  if ppValue e.__cplusplus ≥ 201703 then
    .ok (bindStandard 17 kwConstexpr kwConstexpr emptyExpansion e)
  else if ppValue e.__cplusplus ≥ 201402 then
    .ok (bindStandard 14 kwConstexpr emptyExpansion emptyExpansion e)
  else if ppValue e.__cplusplus ≥ 201103 ∨ ppValue e._MSC_VER ≥ 1900 then
    .ok (bindStandard 11 emptyExpansion emptyExpansion emptyExpansion e)
  else
    .error "This version of OSL requires C++11"

/-- Lines 66-72: `OSL_HOSTDEVICE`. -/
def hostDevice (e : Env) : Env :=
  if e.OSL_HOSTDEVICE.isNone then
    if e.__CUDACC__ then
      { e with OSL_HOSTDEVICE := some (obj ["__host__", "__device__"]) }
    else
      { e with OSL_HOSTDEVICE := some emptyExpansion }
  else e

/-- Lines 74-80: `OSL_DEVICE`. -/
def device (e : Env) : Env :=
  if e.OSL_DEVICE.isNone then
    if e.__CUDA_ARCH__ then
      { e with OSL_DEVICE := some (obj ["__device__"]) }
    else
      { e with OSL_DEVICE := some emptyExpansion }
  else e

/-- Lines 82-88: `OSL_CONSTANT_DATA`. -/
def constantData (e : Env) : Env :=
  if e.OSL_CONSTANT_DATA.isNone then
    if e.__CUDA_ARCH__ then
      { e with OSL_CONSTANT_DATA := some (obj ["__constant__"]) }
    else
      { e with OSL_CONSTANT_DATA := some emptyExpansion }
  else e

/-- Lines 102-104: `OIIO_USE_FMT` is forced to `0` for device compilation. -/
def useFmt (e : Env) : Env :=
  if e.__CUDA_ARCH__ then
    { e with
      OIIO_USE_FMT := some 0
      redefined := noteRedefinition "OIIO_USE_FMT" e.OIIO_USE_FMT 0 e.redefined }
  else e

/-- Lines 162-164: fallback for `__has_cpp_attribute`. -/
def hasCppAttributeFallback (e : Env) : Env :=
  if e.__has_cpp_attribute.isNone then { e with __has_cpp_attribute := some .zero } else e

/-- Lines 167-169: fallback for `__has_attribute`. -/
def hasAttributeFallback (e : Env) : Env :=
  if e.__has_attribute.isNone then { e with __has_attribute := some .zero } else e

/-- Lines 173-175: fallback for `__has_include`. -/
def hasIncludeFallback (e : Env) : Env :=
  if e.__has_include.isNone then { e with __has_include := some .zero } else e

/-- Value of `q(deprecated)` inside `#if` for a query macro of the table; a name
that is not defined evaluates to `0`. -/
def queryDeprecated (q : Option Query) : Int :=
  match q with
  | some q => q.deprecated
  | none => 0

/-- The `#define OSL_DEPRECATED(msg) ...` of lines 179-185. -/
def defineDeprecated (d : MacroDef) (e : Env) : Env :=
  { e with
    OSL_DEPRECATED := some d
    redefined := noteRedefinition "OSL_DEPRECATED" e.OSL_DEPRECATED d e.redefined }

/-- Lines 178-186: `OSL_DEPRECATED`. -/
def deprecated (e : Env) : Env :=
  if ppValue e.OSL_CPLUSPLUS_VERSION ≥ 14 ∨ queryDeprecated e.__has_cpp_attribute ≠ 0 then
    defineDeprecated deprecatedStd e
  else if e.__GNUC__ = true ∨ e.__clang__ = true ∨ queryDeprecated e.__has_attribute ≠ 0 then
    defineDeprecated deprecatedGnu e
  else if e._MSC_VER.isSome then
    defineDeprecated deprecatedMsvc e
  else
    defineDeprecated deprecatedNone e

/-- The `#define OSL_ALIGNAS(size) ...` of lines 191-193. -/
def defineAlignas (d : MacroDef) (e : Env) : Env :=
  { e with
    OSL_ALIGNAS := some d
    redefined := noteRedefinition "OSL_ALIGNAS" e.OSL_ALIGNAS d e.redefined }

/-- Lines 190-194: `OSL_ALIGNAS`. -/
def alignas (e : Env) : Env :=
  if e.__GNUC__ then defineAlignas alignasGnu e else defineAlignas alignasStd e

/-- The `#define OSL_PRETTY_FUNCTION ...` of lines 200-204. -/
def definePrettyFunction (d : MacroDef) (e : Env) : Env :=
  { e with
    OSL_PRETTY_FUNCTION := some d
    redefined := noteRedefinition "OSL_PRETTY_FUNCTION" e.OSL_PRETTY_FUNCTION d e.redefined }

/-- Lines 199-205: `OSL_PRETTY_FUNCTION`. -/
def prettyFunction (e : Env) : Env :=
  if e.__PRETTY_FUNCTION__ then definePrettyFunction (obj ["__PRETTY_FUNCTION__"]) e
  else if e.__FUNCSIG__ then definePrettyFunction (obj ["__FUNCSIG__"]) e
  else definePrettyFunction (obj ["__FUNCTION__"]) e

/-- The `#define OSL_ABORT_IF_DEBUG ...` of lines 212-214. -/
def defineAbortIfDebug (d : MacroDef) (e : Env) : Env :=
  { e with
    OSL_ABORT_IF_DEBUG := some d
    redefined := noteRedefinition "OSL_ABORT_IF_DEBUG" e.OSL_ABORT_IF_DEBUG d e.redefined }

/-- Lines 211-215: `OSL_ABORT_IF_DEBUG`. -/
def abortIfDebug (e : Env) : Env :=
  if ¬ e.NDEBUG then defineAbortIfDebug abortCall e else defineAbortIfDebug voidZero e

/-- Lines 225-237: the unconditional definitions of `OSL_ASSERT` and
`OSL_ASSERT_MSG`. -/
def assertMacros (e : Env) : Env :=
  { e with
    OSL_ASSERT := some assertDef
    OSL_ASSERT_MSG := some assertMsgDef
    redefined :=
      noteRedefinition "OSL_ASSERT_MSG" e.OSL_ASSERT_MSG assertMsgDef
        (noteRedefinition "OSL_ASSERT" e.OSL_ASSERT assertDef e.redefined) }

/-- The two `#define`s of either branch of lines 246-252. -/
def defineDassert (d dmsg : MacroDef) (e : Env) : Env :=
  { e with
    OSL_DASSERT := some d
    OSL_DASSERT_MSG := some dmsg
    redefined :=
      noteRedefinition "OSL_DASSERT_MSG" e.OSL_DASSERT_MSG dmsg
        (noteRedefinition "OSL_DASSERT" e.OSL_DASSERT d e.redefined) }

/-- Lines 246-252: `OSL_DASSERT` and `OSL_DASSERT_MSG`. -/
def dassertMacros (e : Env) : Env :=
  if ¬ e.NDEBUG then
    defineDassert (obj ["OSL_ASSERT"]) (obj ["OSL_ASSERT_MSG"]) e
  else
    defineDassert (fn ["x"] sizeofBody) (fn ["x", "..."] sizeofBody) e

/-- The groups after the language-standard probe, lines 66-252.  The headers
included on lines 91-113 belong to other packages and are taken not to touch any
macro of `Env`. -/
def resolveRest (e : Env) : Env :=
  dassertMacros (assertMacros (abortIfDebug (prettyFunction (alignas (deprecated
    (hasIncludeFallback (hasAttributeFallback (hasCppAttributeFallback
      (useFmt (constantData (device (hostDevice e))))))))))))

/-- One evaluation of the body of the header (lines 47-252) in environment `e`:
the resulting environment, or the message of the `#error` that stopped it. -/
def resolve (e : Env) : Except String Env :=
  (languageStandard e).map resolveRest

/-- Processing `#include <OSL/oslconfig.h>`: `#pragma once` (line 29) skips a file
that was already seen in this translation unit. -/
def includeHeader (e : Env) : Except String Env :=
  if e.once then .ok e else resolve { e with once := true }

/-! ## Run-time behaviour of the assertion macros -/

/-- An argument passed to `fprintf` through the variadic part of a call: a C
string or an integer. -/
inductive Arg where
  | str (s : String)
  | int (i : Int)
deriving DecidableEq, Repr

/-- Output of the C library's `printf` family for the conversions `%s`, `%d`,
`%u` and `%%` (the ones the header's own formats use, plus `%d`), on the
characters of the format.  `none` stands for a call whose behaviour the C
standard leaves undefined: an unknown or incomplete conversion, a missing
argument, an argument of the wrong kind.  Arguments left over when the format
is exhausted are ignored, as the standard prescribes. -/
def renderChars : List Char → List Arg → Option (List Char)
  | [], _ => some []
  | [c], _ => if c = '%' then none else some [c]
  | c :: d :: fmt, args =>
    if c = '%' then
      if d = '%' then (renderChars fmt args).map (fun r => '%' :: r)
      else if d = 's' then
        match args with
        | .str s :: rest => (renderChars fmt rest).map (fun r => s.toList ++ r)
        | _ => none
      else if d = 'd' then
        match args with
        | .int i :: rest => (renderChars fmt rest).map (fun r => (toString i).toList ++ r)
        | _ => none
      else if d = 'u' then
        match args with
        | .int i :: rest =>
          if 0 ≤ i then (renderChars fmt rest).map (fun r => (toString i.toNat).toList ++ r)
          else none
        | _ => none
      else none
    else (renderChars (d :: fmt) args).map (fun r => c :: r)

/-- The text `fprintf(stream, fmt, args...)` writes. -/
def render (fmt : String) (args : List Arg) : Option String :=
  (renderChars fmt.toList args).map String.mk

/-- What the predefined identifiers stand for at the place a check is written. -/
structure Site where
  file : String
  line : Nat
  prettyFunction : String
  funcsig : String
  function : String
deriving DecidableEq, Repr

/-- A running process: the client's own state and what has been written to the
error stream so far, oldest first. -/
structure Proc (σ : Type) where
  mem : σ
  stderr : List String

/-- How the evaluation of a check ends: execution goes on, or `abort()` has
terminated the process. -/
inductive Outcome (σ : Type) where
  | continues (p : Proc σ)
  | aborted (p : Proc σ)

/-- A condition expression: evaluating it yields a truth value and may change
the client's state. -/
abbrev Cond (σ : Type) := σ → Bool × σ

/-- The expressions passed after `msg`: evaluating them yields the values handed
to `fprintf` and may change the client's state. -/
abbrev VarArgs (σ : Type) := σ → List Arg × σ

/-- Modelled from the spec: `OIIO_LIKELY` is defined in OpenImageIO's
`platform.h`, which is not among the sources.  The spec has the checks evaluate
their condition; the macro is taken to be a branch hint that evaluates its
operand once and yields its truth value. -/
def OIIO_LIKELY {σ : Type} (x : Cond σ) : Cond σ := x

/-- The string `OSL_PRETTY_FUNCTION` stands for at a site, from its binding. -/
def prettyFunctionText (e : Env) (s : Site) : Option String :=
  match e.OSL_PRETTY_FUNCTION with
  | some d =>
    if d = obj ["__PRETTY_FUNCTION__"] then some s.prettyFunction
    else if d = obj ["__FUNCSIG__"] then some s.funcsig
    else if d = obj ["__FUNCTION__"] then some s.function
    else none
  | none => none

/-- Whether the statement `OSL_ABORT_IF_DEBUG` terminates the process, from its
binding: `abort()` does, `(void)0` does not. -/
def abortIfDebugAborts (e : Env) : Option Bool :=
  match e.OSL_ABORT_IF_DEBUG with
  | some d =>
    if d = abortCall then some true
    else if d = voidZero then some false
    else none
  | none => none

/-- The expression `assertDef` expands to, evaluated in process `p`; `text` is
the spelling of the condition (`#x`).  `none`: the expansion uses a binding this
model gives no meaning to. -/
def assertExpansion {σ : Type} (e : Env) (s : Site) (text : String) (x : Cond σ)
    (p : Proc σ) : Option (Outcome σ) := do
  let f ← prettyFunctionText e s
  let stop ← abortIfDebugAborts e
  let (b, m) := OIIO_LIKELY x p.mem
  if b then
    pure (.continues { p with mem := m })
  else
    let out ← render assertFormat [.str s.file, .int s.line, .str f, .str text]
    let p1 : Proc σ := { mem := m, stderr := p.stderr ++ [out] }
    pure (if stop then .aborted p1 else .continues p1)

/-- The expression `assertMsgDef` expands to, evaluated in process `p`.  The
format is the concatenation of the three adjacent string literals. -/
def assertMsgExpansion {σ : Type} (e : Env) (s : Site) (text : String) (x : Cond σ)
    (msg : String) (args : VarArgs σ) (p : Proc σ) : Option (Outcome σ) := do
  let f ← prettyFunctionText e s
  let stop ← abortIfDebugAborts e
  let (b, m) := OIIO_LIKELY x p.mem
  if b then
    pure (.continues { p with mem := m })
  else
    let (vs, m1) := args m
    let out ← render (assertMsgFormat ++ msg ++ "\n")
      ([.str s.file, .int s.line, .str f, .str text] ++ vs)
    let p1 : Proc σ := { mem := m1, stderr := p.stderr ++ [out] }
    pure (if stop then .aborted p1 else .continues p1)

/-- An invocation `OSL_ASSERT(x)` in environment `e`. -/
def OSL_ASSERT {σ : Type} (e : Env) (s : Site) (text : String) (x : Cond σ)
    (p : Proc σ) : Option (Outcome σ) :=
  match e.OSL_ASSERT with
  | some d => if d = assertDef then assertExpansion e s text x p else none
  | none => none

/-- An invocation `OSL_ASSERT_MSG(x, msg, args...)` in environment `e`. -/
def OSL_ASSERT_MSG {σ : Type} (e : Env) (s : Site) (text : String) (x : Cond σ)
    (msg : String) (args : VarArgs σ) (p : Proc σ) : Option (Outcome σ) :=
  match e.OSL_ASSERT_MSG with
  | some d => if d = assertMsgDef then assertMsgExpansion e s text x msg args p else none
  | none => none

/-- An invocation `OSL_DASSERT(x)` in environment `e`: the alias of line 247
rescans to `OSL_ASSERT(x)`; the definition of line 250 leaves `x` as the
operand of `sizeof`, which is not evaluated. -/
def OSL_DASSERT {σ : Type} (e : Env) (s : Site) (text : String) (x : Cond σ)
    (p : Proc σ) : Option (Outcome σ) :=
  match e.OSL_DASSERT with
  | some d =>
    if d = obj ["OSL_ASSERT"] then OSL_ASSERT e s text x p
    else if d = fn ["x"] sizeofBody then some (.continues p)
    else none
  | none => none

/-- An invocation `OSL_DASSERT_MSG(x, msg, args...)` in environment `e`: the
alias of line 248 rescans to `OSL_ASSERT_MSG(x, msg, args...)`; the definition
of line 251 drops `msg` and the arguments and leaves `x` unevaluated. -/
def OSL_DASSERT_MSG {σ : Type} (e : Env) (s : Site) (text : String) (x : Cond σ)
    (msg : String) (args : VarArgs σ) (p : Proc σ) : Option (Outcome σ) :=
  match e.OSL_DASSERT_MSG with
  | some d =>
    if d = obj ["OSL_ASSERT_MSG"] then OSL_ASSERT_MSG e s text x msg args p
    else if d = fn ["x", "..."] sizeofBody then some (.continues p)
    else none
  | none => none

/-! ## Reading the spec, and sample inputs -/

/-- The three thresholds of the language-standard probe: the level bound to
`OSL_CPLUSPLUS_VERSION` and the value of `__cplusplus` that level requires. -/
def thresholds : List (Int × Int) := [(11, 201103), (14, 201402), (17, 201703)]

/-- Following the spec's words: `v` is the highest of the three thresholds that
the active standard `c` meets or exceeds. -/
def HighestMet (c v : Int) : Prop :=
  (∃ p ∈ thresholds, p.1 = v ∧ p.2 ≤ c) ∧ ∀ p ∈ thresholds, p.2 ≤ c → p.1 ≤ v

instance (c v : Int) : Decidable (HighestMet c v) := by
  unfold HighestMet; infer_instance

/-- Following the spec's words for the diagnostic of a failed check: the source
file, the source line, the text of `OSL_PRETTY_FUNCTION` and the literal text of
the condition, in the layout of the header's format strings; `tail` is `".\n"`
for the plain check and `": "`, the user's message and `"\n"` for the message
variant. -/
def diagnostic (s : Site) (f text tail : String) : String :=
  s.file ++ ":" ++ toString s.line ++ ": " ++ f ++ ": Assertion '" ++ text ++ "' failed" ++ tail

/-- The environment after resolution; the environment itself when resolution
stopped at the `#error`. -/
def resolved (e : Env) : Env :=
  match resolve e with
  | .ok e1 => e1
  | .error _ => e

/-- A host compiler that defines `__cplusplus` and nothing else the header
looks at; debug build, nothing predefined by the client. -/
def hostEnv (std : Int) : Env :=
  { __cplusplus := some std, _MSC_VER := none, __CUDACC__ := false, __CUDA_ARCH__ := false,
    __GNUC__ := false, __clang__ := false, __PRETTY_FUNCTION__ := false, __FUNCSIG__ := false,
    NDEBUG := false, __has_cpp_attribute := none, __has_attribute := none,
    __has_include := none, OSL_CPLUSPLUS_VERSION := none, OSL_CONSTEXPR14 := none,
    OSL_CONSTEXPR17 := none, OSL_CONSTEXPR20 := none, OSL_HOSTDEVICE := none,
    OSL_DEVICE := none, OSL_CONSTANT_DATA := none, OIIO_USE_FMT := none,
    OSL_DEPRECATED := none, OSL_ALIGNAS := none, OSL_PRETTY_FUNCTION := none,
    OSL_ABORT_IF_DEBUG := none, OSL_ASSERT := none, OSL_ASSERT_MSG := none,
    OSL_DASSERT := none, OSL_DASSERT_MSG := none, redefined := [], once := false }

/-- C++17 host build, debug mode. -/
def cxx17 : Env := hostEnv 201703

/-- C++17 host build with `NDEBUG` defined. -/
def cxx17Release : Env := { hostEnv 201703 with NDEBUG := true }

/-- C++20 host build. -/
def cxx20 : Env := hostEnv 202002

/-- C++98 host build. -/
def cxx98 : Env := hostEnv 199711

/-- Visual Studio 2015 in its default mode: `_MSC_VER` is 1900 and `__cplusplus`
still reports 199711. -/
def msvc2015 : Env := { hostEnv 199711 with _MSC_VER := some 1900 }

/-- C++17 host build (no CUDA macro) in which the client has defined
`OSL_HOSTDEVICE` before including the header. -/
def hostWithOverride : Env :=
  { hostEnv 201703 with OSL_HOSTDEVICE := some (obj ["__host__", "__device__"]) }

/-- A place where a check is written. -/
def sampleSite : Site :=
  { file := "shade.cpp", line := 42, prettyFunction := "void shade(int)",
    funcsig := "void __cdecl shade(int)", function := "shade" }

/-- A condition that is false and counts its evaluations in the client state. -/
def countingFalse : Cond Nat := fun n => (false, n + 1)

/-- A condition that is true and counts its evaluations in the client state. -/
def countingTrue : Cond Nat := fun n => (true, n + 1)

/-- The single variadic argument `5`. -/
def fiveArg : VarArgs Nat := fun n => ([Arg.int 5], n)

/-- A process that has written nothing yet. -/
def freshProc : Proc Nat := { mem := 0, stderr := [] }

/-- The process as a check leaves it, whichever way the check ends. -/
def Outcome.proc {σ : Type} : Outcome σ → Proc σ
  | .continues p => p
  | .aborted p => p

/-- Whether the check ended in `abort()`. -/
def Outcome.isAborted {σ : Type} : Outcome σ → Bool
  | .continues _ => false
  | .aborted _ => true

/-- Following the spec's words for a probe: the candidates are tried in order,
the first whose test holds is selected, and `fallback` when none holds. -/
def firstCandidate {α : Type} : List (Bool × α) → α → α
  | [], fallback => fallback
  | (test, a) :: rest, fallback => if test then a else firstCandidate rest fallback

/-- Following the claim's words: the candidates of `OSL_DEPRECATED(msg)` and
their tests, from the standard level, the values of
`__has_cpp_attribute(deprecated)` and `__has_attribute(deprecated)`, and whether
`__GNUC__`, `__clang__`, `_MSC_VER` are defined. -/
def deprecatedCandidates (level hasCpp hasAttr : Int) (gnuc clang msc : Bool) :
    List (Bool × MacroDef) :=
  [(decide (14 ≤ level) || decide (hasCpp ≠ 0), deprecatedStd),
   (gnuc || clang || decide (hasAttr ≠ 0), deprecatedGnu),
   (msc, deprecatedMsvc)]

/-- Two environments that differ at most in the compiler-identity macros
`__GNUC__`, `__clang__` and `_MSC_VER` (defined or not, and their values). -/
def DifferOnlyInCompilerIdentity (a b : Env) : Prop :=
  { a with __GNUC__ := b.__GNUC__, __clang__ := b.__clang__, _MSC_VER := b._MSC_VER } = b

instance (a b : Env) : Decidable (DifferOnlyInCompilerIdentity a b) := by
  unfold DifferOnlyInCompilerIdentity; infer_instance

/-- C++11 host build. -/
def cxx11 : Env := hostEnv 201103

/-- C++14 host build. -/
def cxx14 : Env := hostEnv 201402

/-- C++11 build with a compiler that defines `__GNUC__`. -/
def gnu11 : Env := { hostEnv 201103 with __GNUC__ := true }

/-- C++11 build with a compiler that defines `_MSC_VER` only. -/
def msvc11 : Env := { hostEnv 201103 with _MSC_VER := some 1900 }

/-- C++17 device compilation with nvcc: `__CUDACC__` and `__CUDA_ARCH__` are
defined. -/
def cudaDevice : Env := { hostEnv 201703 with __CUDACC__ := true, __CUDA_ARCH__ := true }

/-- The device compilation `cudaDevice` in which the client has defined
`OSL_DEVICE` as empty beforehand. -/
def cudaWithOverride : Env := { cudaDevice with OSL_DEVICE := some emptyExpansion }

/-- C++17 build in which `__FUNCSIG__` is a defined macro. -/
def funcsigEnv : Env := { hostEnv 201703 with __FUNCSIG__ := true }

/-! ## Each group as a single update -/

theorem hostDevice_eq (e : Env) : hostDevice e =
    { e with OSL_HOSTDEVICE :=
        if e.OSL_HOSTDEVICE.isNone then
          (if e.__CUDACC__ then some (obj ["__host__", "__device__"]) else some emptyExpansion)
        else e.OSL_HOSTDEVICE } := by
  unfold hostDevice; split_ifs <;> rfl

theorem device_eq (e : Env) : device e =
    { e with OSL_DEVICE :=
        if e.OSL_DEVICE.isNone then
          (if e.__CUDA_ARCH__ then some (obj ["__device__"]) else some emptyExpansion)
        else e.OSL_DEVICE } := by
  unfold device; split_ifs <;> rfl

theorem constantData_eq (e : Env) : constantData e =
    { e with OSL_CONSTANT_DATA :=
        if e.OSL_CONSTANT_DATA.isNone then
          (if e.__CUDA_ARCH__ then some (obj ["__constant__"]) else some emptyExpansion)
        else e.OSL_CONSTANT_DATA } := by
  unfold constantData; split_ifs <;> rfl

theorem useFmt_eq (e : Env) : useFmt e =
    { e with
      OIIO_USE_FMT := if e.__CUDA_ARCH__ then some 0 else e.OIIO_USE_FMT
      redefined :=
        if e.__CUDA_ARCH__ then noteRedefinition "OIIO_USE_FMT" e.OIIO_USE_FMT 0 e.redefined
        else e.redefined } := by
  unfold useFmt; split_ifs <;> rfl

theorem hasCppAttributeFallback_eq (e : Env) : hasCppAttributeFallback e =
    { e with __has_cpp_attribute :=
        if e.__has_cpp_attribute.isNone then some .zero else e.__has_cpp_attribute } := by
  unfold hasCppAttributeFallback; split_ifs <;> rfl

theorem hasAttributeFallback_eq (e : Env) : hasAttributeFallback e =
    { e with __has_attribute :=
        if e.__has_attribute.isNone then some .zero else e.__has_attribute } := by
  unfold hasAttributeFallback; split_ifs <;> rfl

theorem hasIncludeFallback_eq (e : Env) : hasIncludeFallback e =
    { e with __has_include :=
        if e.__has_include.isNone then some .zero else e.__has_include } := by
  unfold hasIncludeFallback; split_ifs <;> rfl

theorem deprecated_eq (e : Env) : deprecated e =
    defineDeprecated
      (if ppValue e.OSL_CPLUSPLUS_VERSION ≥ 14 ∨ queryDeprecated e.__has_cpp_attribute ≠ 0 then
        deprecatedStd
      else if e.__GNUC__ = true ∨ e.__clang__ = true ∨ queryDeprecated e.__has_attribute ≠ 0 then
        deprecatedGnu
      else if e._MSC_VER.isSome then deprecatedMsvc else deprecatedNone) e := by
  unfold deprecated; split_ifs <;> rfl

theorem alignas_eq (e : Env) : alignas e =
    defineAlignas (if e.__GNUC__ then alignasGnu else alignasStd) e := by
  unfold alignas; split_ifs <;> rfl

theorem prettyFunction_eq (e : Env) : prettyFunction e =
    definePrettyFunction
      (if e.__PRETTY_FUNCTION__ then obj ["__PRETTY_FUNCTION__"]
       else if e.__FUNCSIG__ then obj ["__FUNCSIG__"] else obj ["__FUNCTION__"]) e := by
  unfold prettyFunction; split_ifs <;> rfl

theorem abortIfDebug_eq (e : Env) : abortIfDebug e =
    defineAbortIfDebug (if e.NDEBUG then voidZero else abortCall) e := by
  unfold abortIfDebug; cases e.NDEBUG <;> simp

theorem dassertMacros_eq (e : Env) : dassertMacros e =
    defineDassert (if e.NDEBUG then fn ["x"] sizeofBody else obj ["OSL_ASSERT"])
      (if e.NDEBUG then fn ["x", "..."] sizeofBody else obj ["OSL_ASSERT_MSG"]) e := by
  unfold dassertMacros; cases e.NDEBUG <;> simp

theorem noteRedefinition_same {α : Type} [DecidableEq α] (name : String) (d : α)
    (log : List String) : noteRedefinition name (some d) d log = log := by
  simp [noteRedefinition]

theorem isNone_ifNone {α : Type} (o : Option α) (v : α) :
    (if o.isNone = true then some v else o).isNone = false := by
  cases o <;> simp

theorem isNone_ifNone_ite {α : Type} (o : Option α) (c : Prop) [Decidable c] (a b : α) :
    (if o.isNone = true then (if c then some a else some b) else o).isNone = false := by
  cases o <;> by_cases c <;> simp [*]

/-- The groups after the language probe leave every macro the header only reads,
and the bindings of the language probe, as they were. -/
theorem resolveRest_frame (e : Env) :
    (resolveRest e).__cplusplus = e.__cplusplus ∧ (resolveRest e)._MSC_VER = e._MSC_VER ∧
    (resolveRest e).__CUDACC__ = e.__CUDACC__ ∧ (resolveRest e).__CUDA_ARCH__ = e.__CUDA_ARCH__ ∧
    (resolveRest e).__GNUC__ = e.__GNUC__ ∧ (resolveRest e).__clang__ = e.__clang__ ∧
    (resolveRest e).__PRETTY_FUNCTION__ = e.__PRETTY_FUNCTION__ ∧
    (resolveRest e).__FUNCSIG__ = e.__FUNCSIG__ ∧ (resolveRest e).NDEBUG = e.NDEBUG ∧
    (resolveRest e).once = e.once ∧
    (resolveRest e).OSL_CPLUSPLUS_VERSION = e.OSL_CPLUSPLUS_VERSION ∧
    (resolveRest e).OSL_CONSTEXPR14 = e.OSL_CONSTEXPR14 ∧
    (resolveRest e).OSL_CONSTEXPR17 = e.OSL_CONSTEXPR17 ∧
    (resolveRest e).OSL_CONSTEXPR20 = e.OSL_CONSTEXPR20 := by
  simp only [resolveRest, hostDevice_eq, device_eq, constantData_eq, useFmt_eq,
    hasCppAttributeFallback_eq, hasAttributeFallback_eq, hasIncludeFallback_eq, deprecated_eq,
    alignas_eq, prettyFunction_eq, abortIfDebug_eq, dassertMacros_eq, assertMacros,
    defineDeprecated, defineAlignas, definePrettyFunction, defineAbortIfDebug, defineDassert,
    and_self]

/-- What the groups after the language probe bind, in terms of the environment
they start from. -/
theorem resolveRest_bindings (e : Env) :
    (resolveRest e).OSL_HOSTDEVICE =
      (if e.OSL_HOSTDEVICE.isNone then
        (if e.__CUDACC__ then some (obj ["__host__", "__device__"]) else some emptyExpansion)
      else e.OSL_HOSTDEVICE) ∧
    (resolveRest e).OSL_DEVICE =
      (if e.OSL_DEVICE.isNone then
        (if e.__CUDA_ARCH__ then some (obj ["__device__"]) else some emptyExpansion)
      else e.OSL_DEVICE) ∧
    (resolveRest e).OSL_CONSTANT_DATA =
      (if e.OSL_CONSTANT_DATA.isNone then
        (if e.__CUDA_ARCH__ then some (obj ["__constant__"]) else some emptyExpansion)
      else e.OSL_CONSTANT_DATA) ∧
    (resolveRest e).OSL_ALIGNAS = some (if e.__GNUC__ then alignasGnu else alignasStd) ∧
    (resolveRest e).OSL_PRETTY_FUNCTION =
      some (if e.__PRETTY_FUNCTION__ then obj ["__PRETTY_FUNCTION__"]
        else if e.__FUNCSIG__ then obj ["__FUNCSIG__"] else obj ["__FUNCTION__"]) ∧
    (resolveRest e).OSL_ABORT_IF_DEBUG = some (if e.NDEBUG then voidZero else abortCall) ∧
    (resolveRest e).OSL_ASSERT = some assertDef ∧
    (resolveRest e).OSL_ASSERT_MSG = some assertMsgDef ∧
    (resolveRest e).OSL_DASSERT =
      some (if e.NDEBUG then fn ["x"] sizeofBody else obj ["OSL_ASSERT"]) ∧
    (resolveRest e).OSL_DASSERT_MSG =
      some (if e.NDEBUG then fn ["x", "..."] sizeofBody else obj ["OSL_ASSERT_MSG"]) := by
  simp only [resolveRest, hostDevice_eq, device_eq, constantData_eq, useFmt_eq,
    hasCppAttributeFallback_eq, hasAttributeFallback_eq, hasIncludeFallback_eq, deprecated_eq,
    alignas_eq, prettyFunction_eq, abortIfDebug_eq, dassertMacros_eq, assertMacros,
    defineDeprecated, defineAlignas, definePrettyFunction, defineAbortIfDebug, defineDassert,
    and_self]

/-- The binding of `OSL_DEPRECATED`, in terms of the environment the groups after
the language probe start from. -/
theorem resolveRest_deprecated (e : Env) :
    (resolveRest e).OSL_DEPRECATED = some
      (if ppValue e.OSL_CPLUSPLUS_VERSION ≥ 14 ∨
          queryDeprecated
            (if e.__has_cpp_attribute.isNone then some .zero else e.__has_cpp_attribute) ≠ 0 then
        deprecatedStd
      else if e.__GNUC__ = true ∨ e.__clang__ = true ∨
          queryDeprecated
            (if e.__has_attribute.isNone then some .zero else e.__has_attribute) ≠ 0 then
        deprecatedGnu
      else if e._MSC_VER.isSome then deprecatedMsvc else deprecatedNone) := by
  simp only [resolveRest, hostDevice_eq, device_eq, constantData_eq, useFmt_eq,
    hasCppAttributeFallback_eq, hasAttributeFallback_eq, hasIncludeFallback_eq, deprecated_eq,
    alignas_eq, prettyFunction_eq, abortIfDebug_eq, dassertMacros_eq, assertMacros,
    defineDeprecated, defineAlignas, definePrettyFunction, defineAbortIfDebug, defineDassert]

/-- Running the groups after the language probe a second time changes nothing. -/
theorem resolveRest_idem (e : Env) : resolveRest (resolveRest e) = resolveRest e := by
  simp only [resolveRest, hostDevice_eq, device_eq, constantData_eq, useFmt_eq,
    hasCppAttributeFallback_eq, hasAttributeFallback_eq, hasIncludeFallback_eq, deprecated_eq,
    alignas_eq, prettyFunction_eq, abortIfDebug_eq, dassertMacros_eq, assertMacros,
    defineDeprecated, defineAlignas, definePrettyFunction, defineAbortIfDebug, defineDassert,
    noteRedefinition_same, isNone_ifNone, isNone_ifNone_ite, Bool.false_eq_true, if_false]
  cases h : e.__CUDA_ARCH__ <;> simp [noteRedefinition_same]

/-- The `#define`s of the language probe are identical redefinitions once the
header has been evaluated. -/
theorem bindStandard_resolveRest (v : Int) (c14 c17 c20 : MacroDef) (e : Env) :
    bindStandard v c14 c17 c20 (resolveRest (bindStandard v c14 c17 c20 e)) =
      resolveRest (bindStandard v c14 c17 c20 e) := by
  simp only [resolveRest, hostDevice_eq, device_eq, constantData_eq, useFmt_eq,
    hasCppAttributeFallback_eq, hasAttributeFallback_eq, hasIncludeFallback_eq, deprecated_eq,
    alignas_eq, prettyFunction_eq, abortIfDebug_eq, dassertMacros_eq, assertMacros,
    defineDeprecated, defineAlignas, definePrettyFunction, defineAbortIfDebug, defineDassert,
    bindStandard, noteRedefinition_same]

/-! ## The language-standard probe -/

/-- A successful resolution took one of the three successful branches of lines
47-61 and then ran the remaining groups. -/
theorem resolve_ok_cases (e e1 : Env) (h : resolve e = .ok e1) :
    (201703 ≤ ppValue e.__cplusplus ∧
      e1 = resolveRest (bindStandard 17 kwConstexpr kwConstexpr emptyExpansion e)) ∨
    (ppValue e.__cplusplus < 201703 ∧ 201402 ≤ ppValue e.__cplusplus ∧
      e1 = resolveRest (bindStandard 14 kwConstexpr emptyExpansion emptyExpansion e)) ∨
    (ppValue e.__cplusplus < 201402 ∧
      (201103 ≤ ppValue e.__cplusplus ∨ 1900 ≤ ppValue e._MSC_VER) ∧
      e1 = resolveRest (bindStandard 11 emptyExpansion emptyExpansion emptyExpansion e)) := by
  unfold resolve languageStandard at h
  split_ifs at h with h17 h14 h11 <;> simp only [Except.map, Except.ok.injEq] at h
  · exact Or.inl ⟨h17, h.symm⟩
  · exact Or.inr (Or.inl ⟨by omega, h14, h.symm⟩)
  · exact Or.inr (Or.inr ⟨by omega, h11, h.symm⟩)
  · exact absurd h (by simp)

/-- The language probe succeeds exactly when the floor test of line 57 or an
earlier test holds. -/
theorem languageStandard_ok_iff (e : Env) :
    (∃ e1, languageStandard e = .ok e1) ↔
      (201103 ≤ ppValue e.__cplusplus ∨ 1900 ≤ ppValue e._MSC_VER) := by
  unfold languageStandard
  constructor
  · rintro ⟨e1, h⟩
    split_ifs at h with h17 h14 h11
    · left; omega
    · left; omega
    · exact h11
  · intro h
    split_ifs
    · exact ⟨_, rfl⟩
    · exact ⟨_, rfl⟩
    · exact ⟨_, rfl⟩

/-- Resolution stops only with the message of line 63, and only when both tests
of line 57 fail. -/
theorem resolve_error_cases (e : Env) (m : String) (h : resolve e = .error m) :
    m = "This version of OSL requires C++11" ∧ languageStandard e = .error m ∧
      ppValue e.__cplusplus < 201103 ∧ ppValue e._MSC_VER < 1900 := by
  unfold resolve at h
  unfold languageStandard at h ⊢
  split_ifs at h ⊢ with h17 h14 h11 <;> simp only [Except.map] at h
  · cases h
  · cases h
  · cases h
  · injection h with h
    subst h
    push_neg at h11
    exact ⟨rfl, rfl, h11.1, h11.2⟩

/-- Below both tests of line 57 resolution stops at the `#error`. -/
theorem resolve_below_floor (e : Env) (h : ppValue e.__cplusplus < 201103)
    (hm : ppValue e._MSC_VER < 1900) :
    resolve e = .error "This version of OSL requires C++11" := by
  unfold resolve languageStandard
  rw [if_neg (by omega), if_neg (by omega), if_neg (by omega)]
  rfl

/-- C1, as amended.  Whenever resolution does not fail: if `__cplusplus` meets the
floor 201103L, `OSL_CPLUSPLUS_VERSION` is bound to the highest of the thresholds
11, 14, 17 that `__cplusplus` meets or exceeds; if `__cplusplus` is below the
floor (resolution then went through the `_MSC_VER >= 1900` test of line 57), it
is bound to 11. -/
theorem version_highest_threshold (e e1 : Env) (h : resolve e = .ok e1) :
    (201103 ≤ ppValue e.__cplusplus →
      ∃ v, e1.OSL_CPLUSPLUS_VERSION = some v ∧ HighestMet (ppValue e.__cplusplus) v) ∧
    (ppValue e.__cplusplus < 201103 →
      e1.OSL_CPLUSPLUS_VERSION = some 11 ∧ 1900 ≤ ppValue e._MSC_VER) := by
  rcases resolve_ok_cases e e1 h with ⟨h17, rfl⟩ | ⟨h17, h14, rfl⟩ | ⟨h14, h11, rfl⟩
  · refine ⟨fun _ => ⟨17, ?_, ?_⟩, fun hlt => by omega⟩
    · rw [(resolveRest_frame _).2.2.2.2.2.2.2.2.2.2.1]; rfl
    · simp [HighestMet, thresholds]; omega
  · refine ⟨fun _ => ⟨14, ?_, ?_⟩, fun hlt => by omega⟩
    · rw [(resolveRest_frame _).2.2.2.2.2.2.2.2.2.2.1]; rfl
    · simp [HighestMet, thresholds]; omega
  · refine ⟨fun hge => ⟨11, ?_, ?_⟩, fun hlt => ⟨?_, by omega⟩⟩
    · rw [(resolveRest_frame _).2.2.2.2.2.2.2.2.2.2.1]; rfl
    · simp [HighestMet, thresholds]; omega
    · rw [(resolveRest_frame _).2.2.2.2.2.2.2.2.2.2.1]; rfl

/-- Witness for C1: the C++17 host build resolves, and there the amended
statement holds. -/
theorem version_highest_threshold_witness :
    resolve cxx17 = .ok (resolved cxx17) ∧
    ((201103 ≤ ppValue cxx17.__cplusplus →
      ∃ v, (resolved cxx17).OSL_CPLUSPLUS_VERSION = some v ∧
        HighestMet (ppValue cxx17.__cplusplus) v) ∧
    (ppValue cxx17.__cplusplus < 201103 →
      (resolved cxx17).OSL_CPLUSPLUS_VERSION = some 11 ∧ 1900 ≤ ppValue cxx17._MSC_VER)) :=
  ⟨rfl, version_highest_threshold cxx17 (resolved cxx17) rfl⟩

/-- Counterexample to C1 as stated: with Visual Studio 2015 resolution does not
fail and binds `OSL_CPLUSPLUS_VERSION` to 11, although `__cplusplus` (199711)
meets none of the three thresholds. -/
theorem version_counterexample_msvc :
    (resolve msvc2015).map Env.OSL_CPLUSPLUS_VERSION = .ok (some 11) ∧
      ¬ HighestMet (ppValue msvc2015.__cplusplus) 11 :=
  ⟨rfl, by decide⟩

/-- C2, evaluated at the failing input: with `__cplusplus` = 202002L the active
standard meets the C++20 tier, yet `OSL_CONSTEXPR20` is bound to the empty
expansion (and the level to 17); the other two markers are `constexpr`. -/
theorem constexpr20_empty_at_cxx20 :
    (202002 : Int) ≤ ppValue cxx20.__cplusplus ∧
    (resolve cxx20).map Env.OSL_CONSTEXPR20 = .ok (some emptyExpansion) ∧
    (resolve cxx20).map Env.OSL_CONSTEXPR17 = .ok (some kwConstexpr) ∧
    (resolve cxx20).map Env.OSL_CONSTEXPR14 = .ok (some kwConstexpr) ∧
    (resolve cxx20).map Env.OSL_CPLUSPLUS_VERSION = .ok (some 17) :=
  ⟨by decide, rfl, rfl, rfl, rfl⟩

/-- C3, as amended.  For every environment whose `__cplusplus` is below 201103L
and whose `_MSC_VER` is not at least 1900 (not defined counts as 0), resolution
stops at the `#error` of line 63: no environment, hence no version or tier
marker, results. -/
theorem floor_failure (e : Env) (h : ppValue e.__cplusplus < 201103)
    (hm : ppValue e._MSC_VER < 1900) :
    resolve e = .error "This version of OSL requires C++11" ∧
      languageStandard e = .error "This version of OSL requires C++11" ∧
      ∀ e1, resolve e ≠ .ok e1 := by
  have hr := resolve_below_floor e h hm
  refine ⟨hr, (resolve_error_cases e _ hr).2.1, ?_⟩
  intro e1 h1
  rw [hr] at h1
  cases h1

/-- Witness for C3: a C++98 host build is below the floor and stops. -/
theorem floor_failure_witness :
    ppValue cxx98.__cplusplus < 201103 ∧ ppValue cxx98._MSC_VER < 1900 ∧
    (resolve cxx98 = .error "This version of OSL requires C++11" ∧
      languageStandard cxx98 = .error "This version of OSL requires C++11" ∧
      ∀ e1, resolve cxx98 ≠ .ok e1) :=
  ⟨by decide, by decide, floor_failure cxx98 (by decide) (by decide)⟩

/-- Counterexample to C3 as stated: Visual Studio 2015 reports `__cplusplus`
below 201103L, and resolution succeeds, binding the version and all three tier
markers. -/
theorem floor_counterexample_msvc :
    ppValue msvc2015.__cplusplus < 201103 ∧
    (resolve msvc2015).map
        (fun e => (e.OSL_CPLUSPLUS_VERSION, e.OSL_CONSTEXPR14, e.OSL_CONSTEXPR17,
          e.OSL_CONSTEXPR20)) =
      .ok (some 11, some emptyExpansion, some emptyExpansion, some emptyExpansion) :=
  ⟨by decide, rfl⟩

/-! ## The other axes -/

/-- A successful resolution is the remaining groups run after one of the
`#define` blocks of the language probe. -/
theorem resolve_ok_rest (e e1 : Env) (h : resolve e = .ok e1) :
    ∃ v c14 c17 c20, e1 = resolveRest (bindStandard v c14 c17 c20 e) := by
  rcases resolve_ok_cases e e1 h with ⟨_, h1⟩ | ⟨_, _, h1⟩ | ⟨_, _, h1⟩
  · exact ⟨_, _, _, _, h1⟩
  · exact ⟨_, _, _, _, h1⟩
  · exact ⟨_, _, _, _, h1⟩

/-- The bindings of the axes after the language probe, in terms of the
environment resolution started from. -/
theorem resolve_bindings (e e1 : Env) (h : resolve e = .ok e1) :
    e1.OSL_HOSTDEVICE =
      (if e.OSL_HOSTDEVICE.isNone then
        (if e.__CUDACC__ then some (obj ["__host__", "__device__"]) else some emptyExpansion)
      else e.OSL_HOSTDEVICE) ∧
    e1.OSL_DEVICE =
      (if e.OSL_DEVICE.isNone then
        (if e.__CUDA_ARCH__ then some (obj ["__device__"]) else some emptyExpansion)
      else e.OSL_DEVICE) ∧
    e1.OSL_CONSTANT_DATA =
      (if e.OSL_CONSTANT_DATA.isNone then
        (if e.__CUDA_ARCH__ then some (obj ["__constant__"]) else some emptyExpansion)
      else e.OSL_CONSTANT_DATA) ∧
    e1.OSL_ALIGNAS = some (if e.__GNUC__ then alignasGnu else alignasStd) ∧
    e1.OSL_PRETTY_FUNCTION =
      some (if e.__PRETTY_FUNCTION__ then obj ["__PRETTY_FUNCTION__"]
        else if e.__FUNCSIG__ then obj ["__FUNCSIG__"] else obj ["__FUNCTION__"]) ∧
    e1.OSL_ABORT_IF_DEBUG = some (if e.NDEBUG then voidZero else abortCall) ∧
    e1.OSL_ASSERT = some assertDef ∧
    e1.OSL_ASSERT_MSG = some assertMsgDef ∧
    e1.OSL_DASSERT = some (if e.NDEBUG then fn ["x"] sizeofBody else obj ["OSL_ASSERT"]) ∧
    e1.OSL_DASSERT_MSG =
      some (if e.NDEBUG then fn ["x", "..."] sizeofBody else obj ["OSL_ASSERT_MSG"]) := by
  obtain ⟨v, c14, c17, c20, rfl⟩ := resolve_ok_rest e e1 h
  exact resolveRest_bindings (bindStandard v c14 c17 c20 e)

/-- A binding that is present is the one and only binding of its name. -/
theorem existsUnique_binding {α : Type} (o : Option α) (d : α) (h : o = some d) :
    ∃! b, o = some b :=
  ⟨d, h, fun y hy => by rw [h] at hy; exact (Option.some.inj hy).symm⟩

/-- C8, as amended.  For every environment in which neither `__CUDACC__` nor
`__CUDA_ARCH__` is defined and resolution succeeds, each of `OSL_HOSTDEVICE`,
`OSL_DEVICE` and `OSL_CONSTANT_DATA` that is not already defined before the
header is evaluated resolves to the empty expansion. -/
theorem host_only_qualifiers_empty (e e1 : Env) (h : resolve e = .ok e1)
    (hc : e.__CUDACC__ = false) (ha : e.__CUDA_ARCH__ = false) :
    (e.OSL_HOSTDEVICE = none → e1.OSL_HOSTDEVICE = some emptyExpansion) ∧
    (e.OSL_DEVICE = none → e1.OSL_DEVICE = some emptyExpansion) ∧
    (e.OSL_CONSTANT_DATA = none → e1.OSL_CONSTANT_DATA = some emptyExpansion) := by
  obtain ⟨h1, h2, h3, _⟩ := resolve_bindings e e1 h
  refine ⟨fun hn => ?_, fun hn => ?_, fun hn => ?_⟩
  · rw [h1, hn, hc]; rfl
  · rw [h2, hn, ha]; rfl
  · rw [h3, hn, ha]; rfl

/-- Witness for C8: the plain C++17 host build. -/
theorem host_only_qualifiers_empty_witness :
    resolve cxx17 = .ok (resolved cxx17) ∧ cxx17.__CUDACC__ = false ∧
    cxx17.__CUDA_ARCH__ = false ∧ cxx17.OSL_HOSTDEVICE = none ∧ cxx17.OSL_DEVICE = none ∧
    cxx17.OSL_CONSTANT_DATA = none ∧
    ((cxx17.OSL_HOSTDEVICE = none → (resolved cxx17).OSL_HOSTDEVICE = some emptyExpansion) ∧
    (cxx17.OSL_DEVICE = none → (resolved cxx17).OSL_DEVICE = some emptyExpansion) ∧
    (cxx17.OSL_CONSTANT_DATA = none →
      (resolved cxx17).OSL_CONSTANT_DATA = some emptyExpansion)) :=
  ⟨rfl, rfl, rfl, rfl, rfl, rfl, host_only_qualifiers_empty cxx17 (resolved cxx17) rfl rfl rfl⟩

/-- Counterexample to C8 as stated: a host-only build (neither CUDA macro
defined) whose client defined `OSL_HOSTDEVICE` beforehand keeps that non-empty
definition. -/
theorem host_only_counterexample_override :
    hostWithOverride.__CUDACC__ = false ∧ hostWithOverride.__CUDA_ARCH__ = false ∧
    (resolve hostWithOverride).map Env.OSL_HOSTDEVICE =
      .ok (some (obj ["__host__", "__device__"])) ∧
    obj ["__host__", "__device__"] ≠ emptyExpansion :=
  ⟨rfl, rfl, rfl, by decide⟩

/-- C9.  Resolution can stop only in the language-standard probe: an error of
`resolve` is the error of that probe; whenever the probe succeeds (in
particular whenever `__cplusplus` meets the floor) resolution succeeds and each
of `OSL_HOSTDEVICE`, `OSL_DEVICE`, `OSL_CONSTANT_DATA`, `OSL_DEPRECATED`,
`OSL_ALIGNAS`, `OSL_PRETTY_FUNCTION`, `OSL_ABORT_IF_DEBUG`, `OSL_DASSERT`,
`OSL_DASSERT_MSG` has exactly one binding, in every environment. -/
theorem only_language_floor_fails (e : Env) :
    (∀ m, resolve e = .error m → languageStandard e = .error m) ∧
    (∀ e0, languageStandard e = .ok e0 →
      ∃ e1, resolve e = .ok e1 ∧
        (∃! d, e1.OSL_HOSTDEVICE = some d) ∧ (∃! d, e1.OSL_DEVICE = some d) ∧
        (∃! d, e1.OSL_CONSTANT_DATA = some d) ∧ (∃! d, e1.OSL_DEPRECATED = some d) ∧
        (∃! d, e1.OSL_ALIGNAS = some d) ∧ (∃! d, e1.OSL_PRETTY_FUNCTION = some d) ∧
        (∃! d, e1.OSL_ABORT_IF_DEBUG = some d) ∧ (∃! d, e1.OSL_DASSERT = some d) ∧
        (∃! d, e1.OSL_DASSERT_MSG = some d)) ∧
    (201103 ≤ ppValue e.__cplusplus → ∃ e0, languageStandard e = .ok e0) := by
  refine ⟨fun m hm => (resolve_error_cases e m hm).2.1, fun e0 h0 => ?_,
    fun hge => (languageStandard_ok_iff e).2 (Or.inl hge)⟩
  have hr : resolve e = .ok (resolveRest e0) := by
    unfold resolve; rw [h0]; rfl
  obtain ⟨h1, h2, h3, h4, h5, h6, _, _, h9, h10⟩ := resolve_bindings e _ hr
  refine ⟨_, hr, ?_, ?_, ?_, existsUnique_binding _ _ (resolveRest_deprecated e0),
    existsUnique_binding _ _ h4, existsUnique_binding _ _ h5, existsUnique_binding _ _ h6,
    existsUnique_binding _ _ h9, existsUnique_binding _ _ h10⟩
  · rw [h1]
    cases hd : e.OSL_HOSTDEVICE with
    | none => cases e.__CUDACC__ <;> exact existsUnique_binding _ _ rfl
    | some d => exact existsUnique_binding _ d rfl
  · rw [h2]
    cases hd : e.OSL_DEVICE with
    | none => cases e.__CUDA_ARCH__ <;> exact existsUnique_binding _ _ rfl
    | some d => exact existsUnique_binding _ d rfl
  · rw [h3]
    cases hd : e.OSL_CONSTANT_DATA with
    | none => cases e.__CUDA_ARCH__ <;> exact existsUnique_binding _ _ rfl
    | some d => exact existsUnique_binding _ d rfl

/-- Resolution leaves the `#pragma once` mark as it found it. -/
theorem resolve_once (e e1 : Env) (h : resolve e = .ok e1) : e1.once = e.once := by
  obtain ⟨v, c14, c17, c20, rfl⟩ := resolve_ok_rest e e1 h
  exact (resolveRest_frame _).2.2.2.2.2.2.2.2.2.1

/-- C10.  Evaluating the body of the header again in the environment a
successful evaluation produced yields that same environment: every binding is
the same and no further redefinition is recorded.  Including the header again
also leaves the environment as it is (`#pragma once`). -/
theorem resolve_idempotent (e e1 : Env) (h : resolve e = .ok e1) :
    resolve e1 = .ok e1 ∧
      ∀ e2, includeHeader e = .ok e2 → includeHeader e2 = .ok e2 := by
  constructor
  · have hf := fun x => resolveRest_frame x
    rcases resolve_ok_cases e e1 h with ⟨h17, rfl⟩ | ⟨h17, h14, rfl⟩ | ⟨h14, h11, rfl⟩
    · unfold resolve languageStandard
      rw [(hf _).1, (hf _).2.1]
      rw [show (bindStandard 17 kwConstexpr kwConstexpr emptyExpansion e).__cplusplus
        = e.__cplusplus from rfl, if_pos h17]
      simp only [Except.map, bindStandard_resolveRest, resolveRest_idem]
    · unfold resolve languageStandard
      rw [(hf _).1, (hf _).2.1]
      rw [show (bindStandard 14 kwConstexpr emptyExpansion emptyExpansion e).__cplusplus
        = e.__cplusplus from rfl, if_neg (by omega), if_pos h14]
      simp only [Except.map, bindStandard_resolveRest, resolveRest_idem]
    · unfold resolve languageStandard
      rw [(hf _).1, (hf _).2.1]
      rw [show (bindStandard 11 emptyExpansion emptyExpansion emptyExpansion e).__cplusplus
        = e.__cplusplus from rfl,
        show (bindStandard 11 emptyExpansion emptyExpansion emptyExpansion e)._MSC_VER
        = e._MSC_VER from rfl, if_neg (by omega), if_neg (by omega), if_pos h11]
      simp only [Except.map, bindStandard_resolveRest, resolveRest_idem]
  · intro e2 h2
    unfold includeHeader at h2
    by_cases ho : e.once = true
    · rw [if_pos ho] at h2
      injection h2 with h2
      subst h2
      unfold includeHeader
      rw [if_pos ho]
    · rw [if_neg ho] at h2
      have := resolve_once _ _ h2
      unfold includeHeader
      rw [if_pos this]

/-- Witness for C10: the C++17 host build, evaluated twice. -/
theorem resolve_idempotent_witness :
    resolve cxx17 = .ok (resolved cxx17) ∧
    (resolve (resolved cxx17) = .ok (resolved cxx17) ∧
      ∀ e2, includeHeader cxx17 = .ok e2 → includeHeader e2 = .ok e2) :=
  ⟨rfl, resolve_idempotent cxx17 (resolved cxx17) rfl⟩

/-! ## The assertion macros -/

theorem assertFormat_chars : assertFormat.toList =
    ['%', 's', ':', '%', 'u', ':', ' ', '%', 's', ':', ' ', 'A', 's', 's', 'e', 'r', 't', 'i', 'o',
     'n', ' ', '\'', '%', 's', '\'', ' ', 'f', 'a', 'i', 'l', 'e', 'd', '.', '\n'] := by
  decide

theorem assertMsgFormat_chars : assertMsgFormat.toList =
    ['%', 's', ':', '%', 'u', ':', ' ', '%', 's', ':', ' ', 'A', 's', 's', 'e', 'r', 't', 'i', 'o',
     'n', ' ', '\'', '%', 's', '\'', ' ', 'f', 'a', 'i', 'l', 'e', 'd', ':', ' '] := by
  decide

/-- An ordinary character of the format is copied to the output. -/
theorem renderChars_plain (c : Char) (hc : c ≠ '%') (fmt : List Char) (args : List Arg) :
    renderChars (c :: fmt) args = (renderChars fmt args).map (fun r => c :: r) := by
  cases fmt with
  | nil => simp [renderChars, hc]
  | cons d fmt => simp [renderChars, hc]

/-- A newline pasted after a well-formed format is printed after its output. -/
theorem renderChars_append_newline (fmt : List Char) (args : List Arg) :
    ∀ (r : List Char), renderChars fmt args = some r →
      renderChars (fmt ++ ['\n']) args = some (r ++ ['\n']) := by
  induction fmt, args using renderChars.induct <;> intro r h <;>
    simp_all [renderChars]
  all_goals first
    | (subst h; rfl)
    | (obtain ⟨a, ha, rfl⟩ := h; rename_i ih; exact ⟨_, ih a ha, by simp⟩)
    | (exfalso; omega)

/-- The diagnostic of `OSL_ASSERT`. -/
theorem render_assertFormat (file f text : String) (line : Nat) :
    render assertFormat [.str file, .int line, .str f, .str text] =
      some (file ++ ":" ++ toString line ++ ": " ++ f ++ ": Assertion '" ++ text ++
        "' failed.\n") := by
  unfold render
  rw [assertFormat_chars]
  simp [renderChars]
  apply String.ext
  simp

/-- The diagnostic of `OSL_ASSERT_MSG`, for a user message that is itself a
well-formed format for its arguments. -/
theorem render_assertMsgFormat (file f text msg r : String) (line : Nat) (vs : List Arg)
    (h : render msg vs = some r) :
    render (assertMsgFormat ++ msg ++ "\n")
        ([.str file, .int line, .str f, .str text] ++ vs) =
      some (file ++ ":" ++ toString line ++ ": " ++ f ++ ": Assertion '" ++ text ++
        "' failed: " ++ r ++ "\n") := by
  unfold render at h ⊢
  simp only [Option.map_eq_some'] at h
  obtain ⟨a, ha, rfl⟩ := h
  have h2 := renderChars_append_newline _ _ _ ha
  have hc : assertMsgFormat.data = _ := assertMsgFormat_chars
  have hn : ("\n" : String).data = ['\n'] := rfl
  simp only [String.toList, String.data_append, hc, hn] at h2 ⊢
  simp [renderChars, renderChars_plain, h2]
  apply String.ext
  simp

/-- The text `OSL_PRETTY_FUNCTION` stands for after resolution. -/
theorem prettyFunctionText_resolved (e e1 : Env) (h : resolve e = .ok e1) (s : Site) :
    prettyFunctionText e1 s =
      some (if e.__PRETTY_FUNCTION__ then s.prettyFunction
        else if e.__FUNCSIG__ then s.funcsig else s.function) := by
  unfold prettyFunctionText
  rw [(resolve_bindings e e1 h).2.2.2.2.1]
  cases e.__PRETTY_FUNCTION__ <;> cases e.__FUNCSIG__ <;> simp [obj]

/-- After resolution `OSL_ABORT_IF_DEBUG` aborts exactly when `NDEBUG` was not
defined. -/
theorem abortIfDebugAborts_resolved (e e1 : Env) (h : resolve e = .ok e1) :
    abortIfDebugAborts e1 = some (!e.NDEBUG) := by
  unfold abortIfDebugAborts
  rw [(resolve_bindings e e1 h).2.2.2.2.2.1]
  cases e.NDEBUG <;> simp [abortCall, voidZero, obj]

/-- `OSL_ASSERT` after resolution, condition false: the condition is evaluated,
the diagnostic is written, and the process is aborted unless `NDEBUG` was
defined. -/
theorem OSL_ASSERT_false {σ : Type} (e e1 : Env) (h : resolve e = .ok e1) (s : Site)
    (text : String) (x : Cond σ) (p : Proc σ) (hx : (x p.mem).1 = false) :
    ∃ f, prettyFunctionText e1 s = some f ∧
      OSL_ASSERT e1 s text x p =
        some (if e.NDEBUG then
            .continues ⟨(x p.mem).2, p.stderr ++ [diagnostic s f text ".\n"]⟩
          else
            .aborted ⟨(x p.mem).2, p.stderr ++ [diagnostic s f text ".\n"]⟩) := by
  refine ⟨_, prettyFunctionText_resolved e e1 h s, ?_⟩
  unfold OSL_ASSERT
  rw [(resolve_bindings e e1 h).2.2.2.2.2.2.1]
  simp only [if_true]
  unfold assertExpansion
  rw [prettyFunctionText_resolved e e1 h, abortIfDebugAborts_resolved e e1 h]
  have hd : ∀ f : String, s.file ++ ":" ++ toString s.line ++ ": " ++ f ++ ": Assertion '" ++
      text ++ "' failed.\n" = diagnostic s f text ".\n" := by
    intro f; unfold diagnostic; apply String.ext; simp
  simp [OIIO_LIKELY, hx, render_assertFormat, hd]
  cases e.NDEBUG <;> simp

/-- `OSL_ASSERT_MSG` after resolution, condition false, for a user message that
is a well-formed format for its arguments: the condition and then the arguments
are evaluated, the diagnostic is written, and the process is aborted unless
`NDEBUG` was defined. -/
theorem OSL_ASSERT_MSG_false {σ : Type} (e e1 : Env) (h : resolve e = .ok e1) (s : Site)
    (text : String) (x : Cond σ) (msg : String) (args : VarArgs σ) (p : Proc σ) (r : String)
    (hx : (x p.mem).1 = false) (hr : render msg (args (x p.mem).2).1 = some r) :
    ∃ f, prettyFunctionText e1 s = some f ∧
      OSL_ASSERT_MSG e1 s text x msg args p =
        some (if e.NDEBUG then
            .continues ⟨(args (x p.mem).2).2,
              p.stderr ++ [diagnostic s f text (": " ++ r ++ "\n")]⟩
          else
            .aborted ⟨(args (x p.mem).2).2,
              p.stderr ++ [diagnostic s f text (": " ++ r ++ "\n")]⟩) := by
  refine ⟨_, prettyFunctionText_resolved e e1 h s, ?_⟩
  unfold OSL_ASSERT_MSG
  rw [(resolve_bindings e e1 h).2.2.2.2.2.2.2.1]
  simp only [if_true]
  unfold assertMsgExpansion
  rw [prettyFunctionText_resolved e e1 h, abortIfDebugAborts_resolved e e1 h]
  have hd : ∀ f : String, s.file ++ ":" ++ toString s.line ++ ": " ++ f ++ ": Assertion '" ++
      text ++ "' failed: " ++ r ++ "\n" = diagnostic s f text (": " ++ r ++ "\n") := by
    intro f; unfold diagnostic; apply String.ext; simp
  have hm := fun f => render_assertMsgFormat s.file f text msg r s.line _ hr
  simp only [List.cons_append, List.nil_append] at hm
  simp [OIIO_LIKELY, hx, hm, hd]
  cases e.NDEBUG <;> simp

/-- `OSL_ASSERT` and `OSL_ASSERT_MSG` after resolution, condition true: only the
condition is evaluated. -/
theorem OSL_ASSERT_true {σ : Type} (e e1 : Env) (h : resolve e = .ok e1) (s : Site)
    (text : String) (x : Cond σ) (msg : String) (args : VarArgs σ) (p : Proc σ)
    (hx : (x p.mem).1 = true) :
    OSL_ASSERT e1 s text x p = some (.continues ⟨(x p.mem).2, p.stderr⟩) ∧
    OSL_ASSERT_MSG e1 s text x msg args p = some (.continues ⟨(x p.mem).2, p.stderr⟩) := by
  constructor
  · unfold OSL_ASSERT
    rw [(resolve_bindings e e1 h).2.2.2.2.2.2.1]
    simp only [if_true]
    unfold assertExpansion
    rw [prettyFunctionText_resolved e e1 h, abortIfDebugAborts_resolved e e1 h]
    simp [OIIO_LIKELY, hx]
  · unfold OSL_ASSERT_MSG
    rw [(resolve_bindings e e1 h).2.2.2.2.2.2.2.1]
    simp only [if_true]
    unfold assertMsgExpansion
    rw [prettyFunctionText_resolved e e1 h, abortIfDebugAborts_resolved e e1 h]
    simp [OIIO_LIKELY, hx]

/-- In a debug build the debug-only checks are the plain checks. -/
theorem OSL_DASSERT_debug {σ : Type} (e e1 : Env) (h : resolve e = .ok e1)
    (hn : e.NDEBUG = false) (s : Site) (text : String) (x : Cond σ) (msg : String)
    (args : VarArgs σ) (p : Proc σ) :
    OSL_DASSERT e1 s text x p = OSL_ASSERT e1 s text x p ∧
    OSL_DASSERT_MSG e1 s text x msg args p = OSL_ASSERT_MSG e1 s text x msg args p := by
  obtain ⟨_, _, _, _, _, _, _, _, h9, h10⟩ := resolve_bindings e e1 h
  unfold OSL_DASSERT OSL_DASSERT_MSG
  rw [h9, h10, hn]
  simp

/-- In a release build the debug-only checks do nothing. -/
theorem OSL_DASSERT_release {σ : Type} (e e1 : Env) (h : resolve e = .ok e1)
    (hn : e.NDEBUG = true) (s : Site) (text : String) (x : Cond σ) (msg : String)
    (args : VarArgs σ) (p : Proc σ) :
    OSL_DASSERT e1 s text x p = some (.continues p) ∧
    OSL_DASSERT_MSG e1 s text x msg args p = some (.continues p) := by
  obtain ⟨_, _, _, _, _, _, _, _, h9, h10⟩ := resolve_bindings e e1 h
  unfold OSL_DASSERT OSL_DASSERT_MSG
  rw [h9, h10, hn]
  simp [fn, obj]

/-- C4.  `OSL_ASSERT(x)` and `OSL_ASSERT_MSG(x, msg, ...)` with a false
condition, in either build mode: the condition is evaluated (its effect on the
client state is kept), one diagnostic is appended to the error stream, made of
the source file, the source line, the text of `OSL_PRETTY_FUNCTION` and the
literal text of the condition; and the process is aborted if and only if
`OSL_ABORT_IF_DEBUG` is `abort()`, that is if and only if `NDEBUG` is not
defined.  For the message variant the user's message is taken to be a
well-formed format for its arguments. -/
theorem failed_check_reports {σ : Type} (e e1 : Env) (h : resolve e = .ok e1) (s : Site)
    (text : String) (x : Cond σ) (p : Proc σ) (hx : (x p.mem).1 = false) :
    ∃ f, prettyFunctionText e1 s = some f ∧
      e1.OSL_ABORT_IF_DEBUG = some (if e.NDEBUG then voidZero else abortCall) ∧
      abortIfDebugAborts e1 = some (!e.NDEBUG) ∧
      OSL_ASSERT e1 s text x p =
        some (if e.NDEBUG then
            .continues ⟨(x p.mem).2, p.stderr ++ [diagnostic s f text ".\n"]⟩
          else
            .aborted ⟨(x p.mem).2, p.stderr ++ [diagnostic s f text ".\n"]⟩) ∧
      ∀ (msg : String) (args : VarArgs σ) (r : String),
        render msg (args (x p.mem).2).1 = some r →
        OSL_ASSERT_MSG e1 s text x msg args p =
          some (if e.NDEBUG then
              .continues ⟨(args (x p.mem).2).2,
                p.stderr ++ [diagnostic s f text (": " ++ r ++ "\n")]⟩
            else
              .aborted ⟨(args (x p.mem).2).2,
                p.stderr ++ [diagnostic s f text (": " ++ r ++ "\n")]⟩) := by
  obtain ⟨f, hf, ha⟩ := OSL_ASSERT_false e e1 h s text x p hx
  refine ⟨f, hf, (resolve_bindings e e1 h).2.2.2.2.2.1, abortIfDebugAborts_resolved e e1 h,
    ha, fun msg args r hr => ?_⟩
  obtain ⟨g, hg, hm⟩ := OSL_ASSERT_MSG_false e e1 h s text x msg args p r hx hr
  have hfg : g = f := Option.some.inj (hg.symm.trans hf)
  rw [hfg] at hm
  exact hm

/-- Witness for C4: a failing check in the C++17 debug build. -/
theorem failed_check_reports_witness :
    resolve cxx17 = .ok (resolved cxx17) ∧ (countingFalse freshProc.mem).1 = false ∧
    ∃ f, prettyFunctionText (resolved cxx17) sampleSite = some f ∧
      (resolved cxx17).OSL_ABORT_IF_DEBUG =
        some (if cxx17.NDEBUG then voidZero else abortCall) ∧
      abortIfDebugAborts (resolved cxx17) = some (!cxx17.NDEBUG) ∧
      OSL_ASSERT (resolved cxx17) sampleSite "n > 0" countingFalse freshProc =
        some (if cxx17.NDEBUG then
            .continues ⟨(countingFalse freshProc.mem).2,
              freshProc.stderr ++ [diagnostic sampleSite f "n > 0" ".\n"]⟩
          else
            .aborted ⟨(countingFalse freshProc.mem).2,
              freshProc.stderr ++ [diagnostic sampleSite f "n > 0" ".\n"]⟩) ∧
      ∀ (msg : String) (args : VarArgs Nat) (r : String),
        render msg (args (countingFalse freshProc.mem).2).1 = some r →
        OSL_ASSERT_MSG (resolved cxx17) sampleSite "n > 0" countingFalse msg args freshProc =
          some (if cxx17.NDEBUG then
              .continues ⟨(args (countingFalse freshProc.mem).2).2,
                freshProc.stderr ++ [diagnostic sampleSite f "n > 0" (": " ++ r ++ "\n")]⟩
            else
              .aborted ⟨(args (countingFalse freshProc.mem).2).2,
                freshProc.stderr ++ [diagnostic sampleSite f "n > 0" (": " ++ r ++ "\n")]⟩) :=
  ⟨rfl, rfl,
    failed_check_reports cxx17 (resolved cxx17) rfl sampleSite "n > 0" countingFalse freshProc
      rfl⟩

/-- C5.  With a true condition none of the four checks writes a diagnostic or
terminates the process, in either build mode: the plain checks and the
debug-mode debug-only checks only evaluate the condition, the release-mode
debug-only checks do not even do that. -/
theorem true_check_silent {σ : Type} (e e1 : Env) (h : resolve e = .ok e1) (s : Site)
    (text : String) (x : Cond σ) (msg : String) (args : VarArgs σ) (p : Proc σ)
    (hx : (x p.mem).1 = true) :
    OSL_ASSERT e1 s text x p = some (.continues ⟨(x p.mem).2, p.stderr⟩) ∧
    OSL_ASSERT_MSG e1 s text x msg args p = some (.continues ⟨(x p.mem).2, p.stderr⟩) ∧
    OSL_DASSERT e1 s text x p =
      some (.continues ⟨if e.NDEBUG then p.mem else (x p.mem).2, p.stderr⟩) ∧
    OSL_DASSERT_MSG e1 s text x msg args p =
      some (.continues ⟨if e.NDEBUG then p.mem else (x p.mem).2, p.stderr⟩) := by
  obtain ⟨ha, hm⟩ := OSL_ASSERT_true e e1 h s text x msg args p hx
  refine ⟨ha, hm, ?_⟩
  cases hn : e.NDEBUG with
  | false =>
    obtain ⟨hd, hdm⟩ := OSL_DASSERT_debug e e1 h hn s text x msg args p
    rw [hd, hdm, ha, hm]
    simp
  | true =>
    obtain ⟨hd, hdm⟩ := OSL_DASSERT_release e e1 h hn s text x msg args p
    rw [hd, hdm]
    simp

/-- Witness for C5: a passing check in the C++17 release build. -/
theorem true_check_silent_witness :
    resolve cxx17Release = .ok (resolved cxx17Release) ∧
    (countingTrue freshProc.mem).1 = true ∧
    (OSL_ASSERT (resolved cxx17Release) sampleSite "n >= 0" countingTrue freshProc =
      some (.continues ⟨(countingTrue freshProc.mem).2, freshProc.stderr⟩) ∧
    OSL_ASSERT_MSG (resolved cxx17Release) sampleSite "n >= 0" countingTrue "value was %d"
        fiveArg freshProc =
      some (.continues ⟨(countingTrue freshProc.mem).2, freshProc.stderr⟩) ∧
    OSL_DASSERT (resolved cxx17Release) sampleSite "n >= 0" countingTrue freshProc =
      some (.continues ⟨if cxx17Release.NDEBUG then freshProc.mem
        else (countingTrue freshProc.mem).2, freshProc.stderr⟩) ∧
    OSL_DASSERT_MSG (resolved cxx17Release) sampleSite "n >= 0" countingTrue "value was %d"
        fiveArg freshProc =
      some (.continues ⟨if cxx17Release.NDEBUG then freshProc.mem
        else (countingTrue freshProc.mem).2, freshProc.stderr⟩)) :=
  ⟨rfl, rfl,
    true_check_silent cxx17Release (resolved cxx17Release) rfl sampleSite "n >= 0" countingTrue
      "value was %d" fiveArg freshProc rfl⟩

/-- C6.  When `NDEBUG` is defined, `OSL_DASSERT(x)` and `OSL_DASSERT_MSG(x, ...)`
are bound to `((void)sizeof(x))`, and an invocation, whatever the condition and
its side effects, leaves the whole process as it was: the condition is not
evaluated, nothing is written to the error stream, the process goes on. -/
theorem release_dassert_unevaluated {σ : Type} (e e1 : Env) (h : resolve e = .ok e1)
    (hn : e.NDEBUG = true) (s : Site) (text : String) (x : Cond σ) (msg : String)
    (args : VarArgs σ) (p : Proc σ) :
    e1.OSL_DASSERT = some (fn ["x"] sizeofBody) ∧
    e1.OSL_DASSERT_MSG = some (fn ["x", "..."] sizeofBody) ∧
    OSL_DASSERT e1 s text x p = some (.continues p) ∧
    OSL_DASSERT_MSG e1 s text x msg args p = some (.continues p) := by
  obtain ⟨_, _, _, _, _, _, _, _, h9, h10⟩ := resolve_bindings e e1 h
  obtain ⟨hd, hdm⟩ := OSL_DASSERT_release e e1 h hn s text x msg args p
  rw [hn] at h9 h10
  exact ⟨h9, h10, hd, hdm⟩

/-- Witness for C6: a false condition with a side effect, in the C++17 release
build. -/
theorem release_dassert_unevaluated_witness :
    resolve cxx17Release = .ok (resolved cxx17Release) ∧ cxx17Release.NDEBUG = true ∧
    ((resolved cxx17Release).OSL_DASSERT = some (fn ["x"] sizeofBody) ∧
    (resolved cxx17Release).OSL_DASSERT_MSG = some (fn ["x", "..."] sizeofBody) ∧
    OSL_DASSERT (resolved cxx17Release) sampleSite "n > 0" countingFalse freshProc =
      some (.continues freshProc) ∧
    OSL_DASSERT_MSG (resolved cxx17Release) sampleSite "n > 0" countingFalse "value was %d"
        fiveArg freshProc =
      some (.continues freshProc)) :=
  ⟨rfl, rfl,
    release_dassert_unevaluated cxx17Release (resolved cxx17Release) rfl rfl sampleSite "n > 0"
      countingFalse "value was %d" fiveArg freshProc⟩

/-- C7.  `OSL_ASSERT_MSG(x, msg, args...)` with a false condition, for a message
that is a well-formed format for its arguments: the diagnostic appended to the
error stream is `<file>:<line>: <function>: Assertion '<text of x>' failed: `
followed by the `printf` rendering of `msg` with `args` and a newline.  With
the message `"value was %d"` and the argument `5` the rendering is
`"value was 5"`. -/
theorem assert_msg_diagnostic {σ : Type} (e e1 : Env) (h : resolve e = .ok e1) (s : Site)
    (text : String) (x : Cond σ) (msg : String) (args : VarArgs σ) (p : Proc σ) (r : String)
    (hx : (x p.mem).1 = false) (hr : render msg (args (x p.mem).2).1 = some r) :
    (∃ f, prettyFunctionText e1 s = some f ∧
      OSL_ASSERT_MSG e1 s text x msg args p =
        some (if e.NDEBUG then
            .continues ⟨(args (x p.mem).2).2,
              p.stderr ++ [s.file ++ ":" ++ toString s.line ++ ": " ++ f ++ ": Assertion '" ++
                text ++ "' failed: " ++ r ++ "\n"]⟩
          else
            .aborted ⟨(args (x p.mem).2).2,
              p.stderr ++ [s.file ++ ":" ++ toString s.line ++ ": " ++ f ++ ": Assertion '" ++
                text ++ "' failed: " ++ r ++ "\n"]⟩)) ∧
    render "value was %d" [.int 5] = some "value was 5" := by
  refine ⟨?_, by decide⟩
  obtain ⟨f, hf, hm⟩ := OSL_ASSERT_MSG_false e e1 h s text x msg args p r hx hr
  refine ⟨f, hf, ?_⟩
  have hd : diagnostic s f text (": " ++ r ++ "\n") =
      s.file ++ ":" ++ toString s.line ++ ": " ++ f ++ ": Assertion '" ++ text ++
        "' failed: " ++ r ++ "\n" := by
    unfold diagnostic; apply String.ext; simp
  rw [hm, hd]

/-- Witness for C7: the spec's example, a false condition with message
`"value was %d"` and argument `5` in the C++17 debug build. -/
theorem assert_msg_diagnostic_witness :
    resolve cxx17 = .ok (resolved cxx17) ∧ (countingFalse freshProc.mem).1 = false ∧
    render "value was %d" (fiveArg (countingFalse freshProc.mem).2).1 = some "value was 5" ∧
    ((∃ f, prettyFunctionText (resolved cxx17) sampleSite = some f ∧
      OSL_ASSERT_MSG (resolved cxx17) sampleSite "false" countingFalse "value was %d" fiveArg
          freshProc =
        some (if cxx17.NDEBUG then
            .continues ⟨(fiveArg (countingFalse freshProc.mem).2).2,
              freshProc.stderr ++ [sampleSite.file ++ ":" ++ toString sampleSite.line ++ ": " ++
                f ++ ": Assertion '" ++ "false" ++ "' failed: " ++ "value was 5" ++ "\n"]⟩
          else
            .aborted ⟨(fiveArg (countingFalse freshProc.mem).2).2,
              freshProc.stderr ++ [sampleSite.file ++ ":" ++ toString sampleSite.line ++ ": " ++
                f ++ ": Assertion '" ++ "false" ++ "' failed: " ++ "value was 5" ++ "\n"]⟩)) ∧
    render "value was %d" [.int 5] = some "value was 5") :=
  ⟨rfl, rfl, by decide,
    assert_msg_diagnostic cxx17 (resolved cxx17) rfl sampleSite "false" countingFalse
      "value was %d" fiveArg freshProc "value was 5" rfl (by decide)⟩

/-! ## Tiers, failure condition and probe orders -/

/-- The version and tier markers a successful resolution binds, branch by
branch of lines 47-61. -/
theorem resolve_standard (e e1 : Env) (h : resolve e = .ok e1) :
    (201703 ≤ ppValue e.__cplusplus ∧ e1.OSL_CPLUSPLUS_VERSION = some 17 ∧
      e1.OSL_CONSTEXPR14 = some kwConstexpr ∧ e1.OSL_CONSTEXPR17 = some kwConstexpr ∧
      e1.OSL_CONSTEXPR20 = some emptyExpansion) ∨
    (ppValue e.__cplusplus < 201703 ∧ 201402 ≤ ppValue e.__cplusplus ∧
      e1.OSL_CPLUSPLUS_VERSION = some 14 ∧
      e1.OSL_CONSTEXPR14 = some kwConstexpr ∧ e1.OSL_CONSTEXPR17 = some emptyExpansion ∧
      e1.OSL_CONSTEXPR20 = some emptyExpansion) ∨
    (ppValue e.__cplusplus < 201402 ∧
      (201103 ≤ ppValue e.__cplusplus ∨ 1900 ≤ ppValue e._MSC_VER) ∧
      e1.OSL_CPLUSPLUS_VERSION = some 11 ∧
      e1.OSL_CONSTEXPR14 = some emptyExpansion ∧ e1.OSL_CONSTEXPR17 = some emptyExpansion ∧
      e1.OSL_CONSTEXPR20 = some emptyExpansion) := by
  rcases resolve_ok_cases e e1 h with ⟨h17, rfl⟩ | ⟨h17, h14, rfl⟩ | ⟨h14, h11, rfl⟩
  · obtain ⟨_, _, _, _, _, _, _, _, _, _, hv, h1, h2, h3⟩ := resolveRest_frame
      (bindStandard 17 kwConstexpr kwConstexpr emptyExpansion e)
    exact Or.inl ⟨h17, hv, h1, h2, h3⟩
  · obtain ⟨_, _, _, _, _, _, _, _, _, _, hv, h1, h2, h3⟩ := resolveRest_frame
      (bindStandard 14 kwConstexpr emptyExpansion emptyExpansion e)
    exact Or.inr (Or.inl ⟨h17, h14, hv, h1, h2, h3⟩)
  · obtain ⟨_, _, _, _, _, _, _, _, _, _, hv, h1, h2, h3⟩ := resolveRest_frame
      (bindStandard 11 emptyExpansion emptyExpansion emptyExpansion e)
    exact Or.inr (Or.inr ⟨h14, h11, hv, h1, h2, h3⟩)

theorem kwConstexpr_ne_empty : kwConstexpr ≠ emptyExpansion := by decide

/-- C11.  For two environments in which resolution succeeds and whose
`__cplusplus` values satisfy a <= b (in particular for any a <= b that both
meet the floor 201103L): each of `OSL_CONSTEXPR14`, `OSL_CONSTEXPR17`,
`OSL_CONSTEXPR20` that is `constexpr` at a is `constexpr` at b, and
`OSL_CPLUSPLUS_VERSION` at a is at most `OSL_CPLUSPLUS_VERSION` at b. -/
theorem tiers_monotone (a b a1 b1 : Env) (ha : resolve a = .ok a1) (hb : resolve b = .ok b1)
    (hab : ppValue a.__cplusplus ≤ ppValue b.__cplusplus) :
    (a1.OSL_CONSTEXPR14 = some kwConstexpr → b1.OSL_CONSTEXPR14 = some kwConstexpr) ∧
    (a1.OSL_CONSTEXPR17 = some kwConstexpr → b1.OSL_CONSTEXPR17 = some kwConstexpr) ∧
    (a1.OSL_CONSTEXPR20 = some kwConstexpr → b1.OSL_CONSTEXPR20 = some kwConstexpr) ∧
    ∃ va vb, a1.OSL_CPLUSPLUS_VERSION = some va ∧ b1.OSL_CPLUSPLUS_VERSION = some vb ∧
      va ≤ vb := by
  have hne := kwConstexpr_ne_empty
  rcases resolve_standard a a1 ha with ⟨ca, va, a14, a17, a20⟩ | ⟨ca, ca', va, a14, a17, a20⟩ |
      ⟨ca, ca', va, a14, a17, a20⟩ <;>
    rcases resolve_standard b b1 hb with ⟨cb, vb, b14, b17, b20⟩ |
      ⟨cb, cb', vb, b14, b17, b20⟩ | ⟨cb, cb', vb, b14, b17, b20⟩ <;>
    first
      | (exfalso; omega)
      | (refine ⟨?_, ?_, ?_, _, _, va, vb, by decide⟩ <;>
          simp [a14, a17, a20, b14, b17, b20, hne])

/-- Witness for C11: the C++14 and the C++17 host builds. -/
theorem tiers_monotone_witness :
    resolve cxx14 = .ok (resolved cxx14) ∧ resolve cxx17 = .ok (resolved cxx17) ∧
    ppValue cxx14.__cplusplus ≤ ppValue cxx17.__cplusplus ∧
    ((resolved cxx14).OSL_CONSTEXPR14 = some kwConstexpr →
      (resolved cxx17).OSL_CONSTEXPR14 = some kwConstexpr) ∧
    ((resolved cxx14).OSL_CONSTEXPR17 = some kwConstexpr →
      (resolved cxx17).OSL_CONSTEXPR17 = some kwConstexpr) ∧
    ((resolved cxx14).OSL_CONSTEXPR20 = some kwConstexpr →
      (resolved cxx17).OSL_CONSTEXPR20 = some kwConstexpr) ∧
    ∃ va vb, (resolved cxx14).OSL_CPLUSPLUS_VERSION = some va ∧
      (resolved cxx17).OSL_CPLUSPLUS_VERSION = some vb ∧ va ≤ vb :=
  ⟨rfl, rfl, by decide,
    tiers_monotone cxx14 cxx17 (resolved cxx14) (resolved cxx17) rfl rfl (by decide)⟩

/-- C17.  Resolution fails if and only if `__cplusplus` is below 201103L and
`_MSC_VER` is not at least 1900 (not defined counts as 0); with `__cplusplus`
below 201103L and `_MSC_VER` at least 1900 it succeeds, binding
`OSL_CPLUSPLUS_VERSION` to 11 and the three tier markers to the empty
expansion. -/
theorem failure_condition_exact (e : Env) :
    ((∃ m, resolve e = .error m) ↔
      (ppValue e.__cplusplus < 201103 ∧ ¬ 1900 ≤ ppValue e._MSC_VER)) ∧
    (ppValue e.__cplusplus < 201103 → 1900 ≤ ppValue e._MSC_VER →
      ∃ e1, resolve e = .ok e1 ∧ e1.OSL_CPLUSPLUS_VERSION = some 11 ∧
        e1.OSL_CONSTEXPR14 = some emptyExpansion ∧ e1.OSL_CONSTEXPR17 = some emptyExpansion ∧
        e1.OSL_CONSTEXPR20 = some emptyExpansion) := by
  refine ⟨⟨?_, ?_⟩, ?_⟩
  · rintro ⟨m, hm⟩
    obtain ⟨_, _, hc, hv⟩ := resolve_error_cases e m hm
    exact ⟨hc, by omega⟩
  · rintro ⟨hc, hv⟩
    exact ⟨_, resolve_below_floor e hc (by omega)⟩
  · intro hc hv
    obtain ⟨e0, h0⟩ := (languageStandard_ok_iff e).2 (Or.inr hv)
    have hr : resolve e = .ok (resolveRest e0) := by
      unfold resolve; rw [h0]; rfl
    refine ⟨_, hr, ?_⟩
    rcases resolve_standard e _ hr with ⟨c, _⟩ | ⟨_, c, _⟩ | ⟨_, _, hv, h1, h2, h3⟩
    · omega
    · omega
    · exact ⟨hv, h1, h2, h3⟩

/-- Witness for C17: Visual Studio 2015 in its default mode. -/
theorem failure_condition_exact_witness :
    ppValue msvc2015.__cplusplus < 201103 ∧ 1900 ≤ ppValue msvc2015._MSC_VER ∧
    (((∃ m, resolve msvc2015 = .error m) ↔
      (ppValue msvc2015.__cplusplus < 201103 ∧ ¬ 1900 ≤ ppValue msvc2015._MSC_VER)) ∧
    (ppValue msvc2015.__cplusplus < 201103 → 1900 ≤ ppValue msvc2015._MSC_VER →
      ∃ e1, resolve msvc2015 = .ok e1 ∧ e1.OSL_CPLUSPLUS_VERSION = some 11 ∧
        e1.OSL_CONSTEXPR14 = some emptyExpansion ∧ e1.OSL_CONSTEXPR17 = some emptyExpansion ∧
        e1.OSL_CONSTEXPR20 = some emptyExpansion)) :=
  ⟨by decide, by decide, failure_condition_exact msvc2015⟩

/-- The fallback of lines 162-169 does not change the value of a query. -/
theorem queryDeprecated_fallback (q : Option Query) :
    queryDeprecated (if q.isNone = true then some Query.zero else q) = queryDeprecated q := by
  cases q <;> simp [queryDeprecated, Query.deprecated]

/-- The binding of `OSL_DEPRECATED` after resolution, in terms of the
environment resolution started from and of the level it bound. -/
theorem resolve_deprecated (e e1 : Env) (h : resolve e = .ok e1) :
    e1.OSL_DEPRECATED = some
      (if 14 ≤ ppValue e1.OSL_CPLUSPLUS_VERSION ∨ queryDeprecated e.__has_cpp_attribute ≠ 0 then
        deprecatedStd
      else if e.__GNUC__ = true ∨ e.__clang__ = true ∨
          queryDeprecated e.__has_attribute ≠ 0 then
        deprecatedGnu
      else if e._MSC_VER.isSome then deprecatedMsvc else deprecatedNone) := by
  obtain ⟨v, c14, c17, c20, rfl⟩ := resolve_ok_rest e e1 h
  rw [resolveRest_deprecated, (resolveRest_frame _).2.2.2.2.2.2.2.2.2.2.1]
  simp only [queryDeprecated_fallback]
  rfl

/-- The level bound by the language probe is at least 14 exactly when
`__cplusplus` is at least 201402L. -/
theorem resolve_level14 (e e1 : Env) (h : resolve e = .ok e1) :
    14 ≤ ppValue e1.OSL_CPLUSPLUS_VERSION ↔ 201402 ≤ ppValue e.__cplusplus := by
  have h17 : ppValue (some (17 : Int)) = 17 := rfl
  have h14 : ppValue (some (14 : Int)) = 14 := rfl
  have h11 : ppValue (some (11 : Int)) = 11 := rfl
  rcases resolve_standard e e1 h with ⟨c, hv, _⟩ | ⟨_, c, hv, _⟩ | ⟨c, _, hv, _⟩ <;>
    rw [hv] <;> simp only [h17, h14, h11] <;> constructor <;> intro _ <;> omega

/-- C12.  `OSL_DEPRECATED(msg)` resolves to the first candidate whose test holds,
in the order: `[[deprecated(msg)]]` (standard level at least 14, or
`__has_cpp_attribute(deprecated)` true), `__attribute__((deprecated(msg)))`
(`__GNUC__` or `__clang__` defined, or `__has_attribute(deprecated)` true),
`__declspec(deprecated(msg))` (`_MSC_VER` defined), and the empty expansion when
no test holds; each candidate is selected exactly when its own test holds and
every earlier test is false. -/
theorem deprecated_probe_order (e e1 : Env) (h : resolve e = .ok e1) :
    e1.OSL_DEPRECATED = some
      (firstCandidate
        (deprecatedCandidates (ppValue e1.OSL_CPLUSPLUS_VERSION)
          (queryDeprecated e.__has_cpp_attribute) (queryDeprecated e.__has_attribute)
          e.__GNUC__ e.__clang__ e._MSC_VER.isSome)
        deprecatedNone) ∧
    (e1.OSL_DEPRECATED = some deprecatedStd ↔
      (14 ≤ ppValue e1.OSL_CPLUSPLUS_VERSION ∨ queryDeprecated e.__has_cpp_attribute ≠ 0)) ∧
    (e1.OSL_DEPRECATED = some deprecatedGnu ↔
      ¬ (14 ≤ ppValue e1.OSL_CPLUSPLUS_VERSION ∨ queryDeprecated e.__has_cpp_attribute ≠ 0) ∧
      (e.__GNUC__ = true ∨ e.__clang__ = true ∨ queryDeprecated e.__has_attribute ≠ 0)) ∧
    (e1.OSL_DEPRECATED = some deprecatedMsvc ↔
      ¬ (14 ≤ ppValue e1.OSL_CPLUSPLUS_VERSION ∨ queryDeprecated e.__has_cpp_attribute ≠ 0) ∧
      ¬ (e.__GNUC__ = true ∨ e.__clang__ = true ∨ queryDeprecated e.__has_attribute ≠ 0) ∧
      e._MSC_VER.isSome = true) ∧
    (e1.OSL_DEPRECATED = some deprecatedNone ↔
      ¬ (14 ≤ ppValue e1.OSL_CPLUSPLUS_VERSION ∨ queryDeprecated e.__has_cpp_attribute ≠ 0) ∧
      ¬ (e.__GNUC__ = true ∨ e.__clang__ = true ∨ queryDeprecated e.__has_attribute ≠ 0) ∧
      ¬ e._MSC_VER.isSome = true) ∧
    (14 ≤ ppValue e1.OSL_CPLUSPLUS_VERSION ↔ 201402 ≤ ppValue e.__cplusplus) := by
  have hd := resolve_deprecated e e1 h
  have n1 : deprecatedStd ≠ deprecatedGnu := by decide
  have n2 : deprecatedStd ≠ deprecatedMsvc := by decide
  have n3 : deprecatedStd ≠ deprecatedNone := by decide
  have n4 : deprecatedGnu ≠ deprecatedMsvc := by decide
  have n5 : deprecatedGnu ≠ deprecatedNone := by decide
  have n6 : deprecatedMsvc ≠ deprecatedNone := by decide
  have hfirst : ∀ (A B C : Prop) [Decidable A] [Decidable B] [Decidable C],
      (if A then deprecatedStd else if B then deprecatedGnu
        else if C then deprecatedMsvc else deprecatedNone) =
      firstCandidate [(decide A, deprecatedStd), (decide B, deprecatedGnu),
        (decide C, deprecatedMsvc)] deprecatedNone := by
    intro A B C _ _ _
    by_cases hA : A <;> by_cases hB : B <;> by_cases hC : C <;> simp [firstCandidate, hA, hB, hC]
  refine ⟨?_, ?_, ?_, ?_, ?_, resolve_level14 e e1 h⟩
  · rw [hd, hfirst]
    unfold deprecatedCandidates
    congr 3 <;> simp [Bool.decide_or, Bool.or_assoc]
  all_goals
    rw [hd]
    by_cases hA : (14 ≤ ppValue e1.OSL_CPLUSPLUS_VERSION ∨
      queryDeprecated e.__has_cpp_attribute ≠ 0) <;>
    by_cases hB : (e.__GNUC__ = true ∨ e.__clang__ = true ∨
      queryDeprecated e.__has_attribute ≠ 0) <;>
    by_cases hC : e._MSC_VER.isSome = true <;>
    simp only [hA, hB, hC, if_true, if_false, Option.some.injEq, not_true_eq_false,
      not_false_eq_true, and_self, and_true, true_and, false_and, and_false, iff_true,
      iff_false, n1, n2, n3, n4, n5, n6, n1.symm, n2.symm, n3.symm, n4.symm, n5.symm, n6.symm,
      true_iff, false_iff, not_false_iff, Bool.false_eq_true]

/-- Witness for C12: a C++11 build with only `_MSC_VER` defined gets the
`__declspec` form. -/
theorem deprecated_probe_order_witness :
    resolve msvc11 = .ok (resolved msvc11) ∧
    (resolved msvc11).OSL_DEPRECATED = some deprecatedMsvc ∧
    ((resolved msvc11).OSL_DEPRECATED = some deprecatedMsvc ↔
      ¬ (14 ≤ ppValue (resolved msvc11).OSL_CPLUSPLUS_VERSION ∨
        queryDeprecated msvc11.__has_cpp_attribute ≠ 0) ∧
      ¬ (msvc11.__GNUC__ = true ∨ msvc11.__clang__ = true ∨
        queryDeprecated msvc11.__has_attribute ≠ 0) ∧
      msvc11._MSC_VER.isSome = true) :=
  ⟨rfl, rfl, (deprecated_probe_order msvc11 (resolved msvc11) rfl).2.2.2.1⟩

/-- C15.  `OSL_PRETTY_FUNCTION` resolves to `__PRETTY_FUNCTION__` when
`defined(__PRETTY_FUNCTION__)` holds; otherwise to `__FUNCSIG__` when
`defined(__FUNCSIG__)` holds; and to `__FUNCTION__` exactly when neither test
holds. -/
theorem pretty_function_order (e e1 : Env) (h : resolve e = .ok e1) :
    (e.__PRETTY_FUNCTION__ = true →
      e1.OSL_PRETTY_FUNCTION = some (obj ["__PRETTY_FUNCTION__"])) ∧
    (e.__PRETTY_FUNCTION__ = false → e.__FUNCSIG__ = true →
      e1.OSL_PRETTY_FUNCTION = some (obj ["__FUNCSIG__"])) ∧
    (e1.OSL_PRETTY_FUNCTION = some (obj ["__FUNCTION__"]) ↔
      (e.__PRETTY_FUNCTION__ = false ∧ e.__FUNCSIG__ = false)) := by
  rw [(resolve_bindings e e1 h).2.2.2.2.1]
  cases e.__PRETTY_FUNCTION__ <;> cases e.__FUNCSIG__ <;> simp [obj]

/-- Witness for C15: a build in which only `__FUNCSIG__` is a defined macro. -/
theorem pretty_function_order_witness :
    resolve funcsigEnv = .ok (resolved funcsigEnv) ∧
    funcsigEnv.__PRETTY_FUNCTION__ = false ∧ funcsigEnv.__FUNCSIG__ = true ∧
    ((funcsigEnv.__PRETTY_FUNCTION__ = true →
      (resolved funcsigEnv).OSL_PRETTY_FUNCTION = some (obj ["__PRETTY_FUNCTION__"])) ∧
    (funcsigEnv.__PRETTY_FUNCTION__ = false → funcsigEnv.__FUNCSIG__ = true →
      (resolved funcsigEnv).OSL_PRETTY_FUNCTION = some (obj ["__FUNCSIG__"])) ∧
    ((resolved funcsigEnv).OSL_PRETTY_FUNCTION = some (obj ["__FUNCTION__"]) ↔
      (funcsigEnv.__PRETTY_FUNCTION__ = false ∧ funcsigEnv.__FUNCSIG__ = false))) :=
  ⟨rfl, rfl, rfl, pretty_function_order funcsigEnv (resolved funcsigEnv) rfl⟩

/-- C14.  For every environment that has not predefined the three symbols:
`OSL_HOSTDEVICE` is `__host__ __device__` if and only if `__CUDACC__` is defined
and empty otherwise; `OSL_DEVICE` is `__device__` and `OSL_CONSTANT_DATA` is
`__constant__` if and only if `__CUDA_ARCH__` is defined, and empty otherwise.
Any other such environment with the same `__CUDACC__` gets the same
`OSL_HOSTDEVICE` whatever its `__CUDA_ARCH__`, and any with the same
`__CUDA_ARCH__` gets the same `OSL_DEVICE` and `OSL_CONSTANT_DATA` whatever its
`__CUDACC__`. -/
theorem execution_context_probes (e e1 : Env) (h : resolve e = .ok e1)
    (hh : e.OSL_HOSTDEVICE = none) (hd : e.OSL_DEVICE = none)
    (hc : e.OSL_CONSTANT_DATA = none) :
    e1.OSL_HOSTDEVICE =
      some (if e.__CUDACC__ then obj ["__host__", "__device__"] else emptyExpansion) ∧
    (e1.OSL_HOSTDEVICE = some (obj ["__host__", "__device__"]) ↔ e.__CUDACC__ = true) ∧
    e1.OSL_DEVICE = some (if e.__CUDA_ARCH__ then obj ["__device__"] else emptyExpansion) ∧
    (e1.OSL_DEVICE = some (obj ["__device__"]) ↔ e.__CUDA_ARCH__ = true) ∧
    e1.OSL_CONSTANT_DATA =
      some (if e.__CUDA_ARCH__ then obj ["__constant__"] else emptyExpansion) ∧
    (e1.OSL_CONSTANT_DATA = some (obj ["__constant__"]) ↔ e.__CUDA_ARCH__ = true) ∧
    ∀ e2 e3, resolve e2 = .ok e3 → e2.OSL_HOSTDEVICE = none → e2.OSL_DEVICE = none →
      e2.OSL_CONSTANT_DATA = none →
      (e2.__CUDACC__ = e.__CUDACC__ → e3.OSL_HOSTDEVICE = e1.OSL_HOSTDEVICE) ∧
      (e2.__CUDA_ARCH__ = e.__CUDA_ARCH__ →
        e3.OSL_DEVICE = e1.OSL_DEVICE ∧ e3.OSL_CONSTANT_DATA = e1.OSL_CONSTANT_DATA) := by
  obtain ⟨h1, h2, h3, _⟩ := resolve_bindings e e1 h
  rw [hh] at h1
  rw [hd] at h2
  rw [hc] at h3
  refine ⟨?_, ?_, ?_, ?_, ?_, ?_, ?_⟩
  · rw [h1]; cases e.__CUDACC__ <;> rfl
  · rw [h1]; cases e.__CUDACC__ <;> simp [obj, emptyExpansion]
  · rw [h2]; cases e.__CUDA_ARCH__ <;> rfl
  · rw [h2]; cases e.__CUDA_ARCH__ <;> simp [obj, emptyExpansion]
  · rw [h3]; cases e.__CUDA_ARCH__ <;> rfl
  · rw [h3]; cases e.__CUDA_ARCH__ <;> simp [obj, emptyExpansion]
  · intro e2 e3 h23 hh2 hd2 hc2
    obtain ⟨g1, g2, g3, _⟩ := resolve_bindings e2 e3 h23
    rw [hh2] at g1
    rw [hd2] at g2
    rw [hc2] at g3
    refine ⟨fun hq => ?_, fun hq => ⟨?_, ?_⟩⟩
    · rw [g1, h1, hq]
    · rw [g2, h2, hq]
    · rw [g3, h3, hq]

/-- Witness for C14: device compilation with nvcc, nothing predefined. -/
theorem execution_context_probes_witness :
    resolve cudaDevice = .ok (resolved cudaDevice) ∧ cudaDevice.OSL_HOSTDEVICE = none ∧
    cudaDevice.OSL_DEVICE = none ∧ cudaDevice.OSL_CONSTANT_DATA = none ∧
    (resolved cudaDevice).OSL_HOSTDEVICE = some (obj ["__host__", "__device__"]) ∧
    (resolved cudaDevice).OSL_DEVICE =
      some (if cudaDevice.__CUDA_ARCH__ then obj ["__device__"] else emptyExpansion) ∧
    (resolved cudaDevice).OSL_CONSTANT_DATA = some (obj ["__constant__"]) :=
  ⟨rfl, rfl, rfl, rfl, rfl,
    (execution_context_probes cudaDevice (resolved cudaDevice) rfl rfl rfl rfl).2.2.1, rfl⟩

/-- Resolution succeeds exactly when one of the two tests of line 57 holds. -/
theorem resolve_ok_iff (e : Env) :
    (∃ e1, resolve e = .ok e1) ↔
      (201103 ≤ ppValue e.__cplusplus ∨ 1900 ≤ ppValue e._MSC_VER) := by
  constructor
  · rintro ⟨e1, h⟩
    rcases resolve_ok_cases e e1 h with ⟨c, _⟩ | ⟨_, c, _⟩ | ⟨_, c, _⟩
    · left; omega
    · left; omega
    · exact c
  · intro hc
    obtain ⟨e0, h0⟩ := (languageStandard_ok_iff e).2 hc
    exact ⟨resolveRest e0, by unfold resolve; rw [h0]; rfl⟩

/-- C18.  A definition of `OSL_HOSTDEVICE`, `OSL_DEVICE` or `OSL_CONSTANT_DATA`
made before the header is evaluated is still the definition after resolution,
whatever `__CUDACC__` and `__CUDA_ARCH__` are; and the other two symbols resolve
to the same bindings whatever the prior definition of the first is (in
particular as when it is not defined at all). -/
theorem client_overrides_preserved (e e1 : Env) (h : resolve e = .ok e1) :
    (∀ d, e.OSL_HOSTDEVICE = some d → e1.OSL_HOSTDEVICE = some d) ∧
    (∀ d, e.OSL_DEVICE = some d → e1.OSL_DEVICE = some d) ∧
    (∀ d, e.OSL_CONSTANT_DATA = some d → e1.OSL_CONSTANT_DATA = some d) ∧
    (∀ o, ∃ e2, resolve { e with OSL_HOSTDEVICE := o } = .ok e2 ∧
      e2.OSL_DEVICE = e1.OSL_DEVICE ∧ e2.OSL_CONSTANT_DATA = e1.OSL_CONSTANT_DATA) ∧
    (∀ o, ∃ e2, resolve { e with OSL_DEVICE := o } = .ok e2 ∧
      e2.OSL_HOSTDEVICE = e1.OSL_HOSTDEVICE ∧
      e2.OSL_CONSTANT_DATA = e1.OSL_CONSTANT_DATA) ∧
    (∀ o, ∃ e2, resolve { e with OSL_CONSTANT_DATA := o } = .ok e2 ∧
      e2.OSL_HOSTDEVICE = e1.OSL_HOSTDEVICE ∧ e2.OSL_DEVICE = e1.OSL_DEVICE) := by
  obtain ⟨h1, h2, h3, _⟩ := resolve_bindings e e1 h
  have hok := (resolve_ok_iff e).1 ⟨e1, h⟩
  refine ⟨fun d hd => ?_, fun d hd => ?_, fun d hd => ?_, fun o => ?_, fun o => ?_,
    fun o => ?_⟩
  · rw [h1, hd]; rfl
  · rw [h2, hd]; rfl
  · rw [h3, hd]; rfl
  · obtain ⟨e2, h2'⟩ := (resolve_ok_iff { e with OSL_HOSTDEVICE := o }).2 hok
    obtain ⟨_, g2, g3, _⟩ := resolve_bindings _ e2 h2'
    exact ⟨e2, h2', by rw [g2, h2], by rw [g3, h3]⟩
  · obtain ⟨e2, h2'⟩ := (resolve_ok_iff { e with OSL_DEVICE := o }).2 hok
    obtain ⟨g1, _, g3, _⟩ := resolve_bindings _ e2 h2'
    exact ⟨e2, h2', by rw [g1, h1], by rw [g3, h3]⟩
  · obtain ⟨e2, h2'⟩ := (resolve_ok_iff { e with OSL_CONSTANT_DATA := o }).2 hok
    obtain ⟨g1, g2, _, _⟩ := resolve_bindings _ e2 h2'
    exact ⟨e2, h2', by rw [g1, h1], by rw [g2, h2]⟩

/-- Witness for C18: device compilation in which the client defined
`OSL_DEVICE` as empty; it stays empty although `__CUDA_ARCH__` is defined. -/
theorem client_overrides_preserved_witness :
    resolve cudaWithOverride = .ok (resolved cudaWithOverride) ∧
    cudaWithOverride.__CUDA_ARCH__ = true ∧
    cudaWithOverride.OSL_DEVICE = some emptyExpansion ∧
    (∀ d, cudaWithOverride.OSL_DEVICE = some d →
      (resolved cudaWithOverride).OSL_DEVICE = some d) :=
  ⟨rfl, rfl, rfl,
    (client_overrides_preserved cudaWithOverride (resolved cudaWithOverride) rfl).2.1⟩

/-- C13, as amended.  For two environments that differ only in the
compiler-identity macros `__GNUC__`, `__clang__`, `_MSC_VER`: when resolution
succeeds in both, the bindings of `OSL_CPLUSPLUS_VERSION`, `OSL_CONSTEXPR14`,
`OSL_CONSTEXPR17`, `OSL_CONSTEXPR20`, `OSL_HOSTDEVICE`, `OSL_DEVICE`,
`OSL_CONSTANT_DATA` and `OSL_PRETTY_FUNCTION` are the same in both, and so is
`OSL_DEPRECATED` when the test of its native form holds (standard level at
least 14, or `__has_cpp_attribute(deprecated)` true); and when `__cplusplus` is
at least 201103L resolution succeeds in both. -/
theorem compiler_identity_independence (a b : Env) (hd : DifferOnlyInCompilerIdentity a b) :
    (∀ a1 b1, resolve a = .ok a1 → resolve b = .ok b1 →
      a1.OSL_CPLUSPLUS_VERSION = b1.OSL_CPLUSPLUS_VERSION ∧
      a1.OSL_CONSTEXPR14 = b1.OSL_CONSTEXPR14 ∧ a1.OSL_CONSTEXPR17 = b1.OSL_CONSTEXPR17 ∧
      a1.OSL_CONSTEXPR20 = b1.OSL_CONSTEXPR20 ∧ a1.OSL_HOSTDEVICE = b1.OSL_HOSTDEVICE ∧
      a1.OSL_DEVICE = b1.OSL_DEVICE ∧ a1.OSL_CONSTANT_DATA = b1.OSL_CONSTANT_DATA ∧
      a1.OSL_PRETTY_FUNCTION = b1.OSL_PRETTY_FUNCTION ∧
      ((14 ≤ ppValue a1.OSL_CPLUSPLUS_VERSION ∨ queryDeprecated a.__has_cpp_attribute ≠ 0) →
        a1.OSL_DEPRECATED = b1.OSL_DEPRECATED)) ∧
    (201103 ≤ ppValue a.__cplusplus →
      (∃ a1, resolve a = .ok a1) ∧ (∃ b1, resolve b = .ok b1)) := by
  unfold DifferOnlyInCompilerIdentity at hd
  have key : ∀ {β : Type} (f : Env → β),
      f { a with __GNUC__ := b.__GNUC__, __clang__ := b.__clang__, _MSC_VER := b._MSC_VER } =
        f b := fun f => congrArg f hd
  have hcpp : a.__cplusplus = b.__cplusplus := key Env.__cplusplus
  have hcc : a.__CUDACC__ = b.__CUDACC__ := key Env.__CUDACC__
  have hca : a.__CUDA_ARCH__ = b.__CUDA_ARCH__ := key Env.__CUDA_ARCH__
  have hpf : a.__PRETTY_FUNCTION__ = b.__PRETTY_FUNCTION__ :=
    key Env.__PRETTY_FUNCTION__
  have hfs : a.__FUNCSIG__ = b.__FUNCSIG__ := key Env.__FUNCSIG__
  have hq : a.__has_cpp_attribute = b.__has_cpp_attribute :=
    key Env.__has_cpp_attribute
  have hhd : a.OSL_HOSTDEVICE = b.OSL_HOSTDEVICE := key Env.OSL_HOSTDEVICE
  have hdv : a.OSL_DEVICE = b.OSL_DEVICE := key Env.OSL_DEVICE
  have hcd : a.OSL_CONSTANT_DATA = b.OSL_CONSTANT_DATA := key Env.OSL_CONSTANT_DATA
  refine ⟨fun a1 b1 ha hb => ?_, fun hge => ⟨(resolve_ok_iff a).2 (Or.inl hge),
    (resolve_ok_iff b).2 (Or.inl (by rw [← hcpp]; exact hge))⟩⟩
  obtain ⟨p1, p2, p3, _, p5, _⟩ := resolve_bindings a a1 ha
  obtain ⟨q1, q2, q3, _, q5, _⟩ := resolve_bindings b b1 hb
  have hstd : a1.OSL_CPLUSPLUS_VERSION = b1.OSL_CPLUSPLUS_VERSION ∧
      a1.OSL_CONSTEXPR14 = b1.OSL_CONSTEXPR14 ∧ a1.OSL_CONSTEXPR17 = b1.OSL_CONSTEXPR17 ∧
      a1.OSL_CONSTEXPR20 = b1.OSL_CONSTEXPR20 := by
    rcases resolve_standard a a1 ha with ⟨ca, va, a14, a17, a20⟩ |
        ⟨ca, ca', va, a14, a17, a20⟩ | ⟨ca, ca', va, a14, a17, a20⟩ <;>
      rcases resolve_standard b b1 hb with ⟨cb, vb, b14, b17, b20⟩ |
        ⟨cb, cb', vb, b14, b17, b20⟩ | ⟨cb, cb', vb, b14, b17, b20⟩ <;>
      first
        | (exfalso; rw [hcpp] at ca; omega)
        | (exfalso; rw [hcpp] at ca'; omega)
        | exact ⟨by rw [va, vb], by rw [a14, b14], by rw [a17, b17], by rw [a20, b20]⟩
  refine ⟨hstd.1, hstd.2.1, hstd.2.2.1, hstd.2.2.2, ?_, ?_, ?_, ?_, fun hA => ?_⟩
  · rw [p1, q1, hhd, hcc]
  · rw [p2, q2, hdv, hca]
  · rw [p3, q3, hcd, hca]
  · rw [p5, q5, hpf, hfs]
  · have hB : 14 ≤ ppValue b1.OSL_CPLUSPLUS_VERSION ∨
        queryDeprecated b.__has_cpp_attribute ≠ 0 := by
      rw [← hstd.1, ← hq]; exact hA
    rw [resolve_deprecated a a1 ha, resolve_deprecated b b1 hb, if_pos hA, if_pos hB]

/-- Witness for C13: the C++17 host build and the same build with `__GNUC__`
defined. -/
theorem compiler_identity_independence_witness :
    DifferOnlyInCompilerIdentity cxx17 { cxx17 with __GNUC__ := true } ∧
    (resolved cxx17).OSL_DEPRECATED =
      (resolved { cxx17 with __GNUC__ := true }).OSL_DEPRECATED ∧
    (201103 ≤ ppValue cxx17.__cplusplus →
      (∃ a1, resolve cxx17 = .ok a1) ∧
      (∃ b1, resolve { cxx17 with __GNUC__ := true } = .ok b1)) :=
  ⟨by decide,
    ((compiler_identity_independence cxx17 { cxx17 with __GNUC__ := true } (by decide)).1
      (resolved cxx17) (resolved { cxx17 with __GNUC__ := true }) rfl rfl).2.2.2.2.2.2.2.2
      (by decide),
    (compiler_identity_independence cxx17 { cxx17 with __GNUC__ := true } (by decide)).2⟩

/-- Counterexample to C13 as stated: the C++11 host build and the same build
with `__GNUC__` defined differ only in a compiler-identity macro and get
different bindings of `OSL_DEPRECATED`; the C++98 host build and the same build
with `_MSC_VER` = 1900 differ only in a compiler-identity macro, and resolution
fails in the first and succeeds in the second. -/
theorem compiler_identity_counterexample :
    DifferOnlyInCompilerIdentity cxx11 gnu11 ∧
    (resolve cxx11).map Env.OSL_DEPRECATED = .ok (some deprecatedNone) ∧
    (resolve gnu11).map Env.OSL_DEPRECATED = .ok (some deprecatedGnu) ∧
    deprecatedNone ≠ deprecatedGnu ∧
    DifferOnlyInCompilerIdentity cxx98 msvc2015 ∧
    resolve cxx98 = .error "This version of OSL requires C++11" ∧
    (resolve msvc2015).map Env.OSL_CPLUSPLUS_VERSION = .ok (some 11) :=
  ⟨by decide, rfl, rfl, by decide, by decide, rfl, rfl⟩

/-! ## The debug-only checks -/

/-- C16.  When `NDEBUG` is not defined, `OSL_DASSERT` and `OSL_DASSERT_MSG` are
bound to the names `OSL_ASSERT` and `OSL_ASSERT_MSG`, every invocation does
exactly what the corresponding plain check does, and with a false condition
that is: the condition is evaluated, the same diagnostic is written and the
process is aborted (for the message variant, the message being a well-formed
format for its arguments). -/
theorem debug_dassert_is_assert {σ : Type} (e e1 : Env) (h : resolve e = .ok e1)
    (hn : e.NDEBUG = false) (s : Site) (text : String) (x : Cond σ) (msg : String)
    (args : VarArgs σ) (p : Proc σ) :
    e1.OSL_DASSERT = some (obj ["OSL_ASSERT"]) ∧
    e1.OSL_DASSERT_MSG = some (obj ["OSL_ASSERT_MSG"]) ∧
    OSL_DASSERT e1 s text x p = OSL_ASSERT e1 s text x p ∧
    OSL_DASSERT_MSG e1 s text x msg args p = OSL_ASSERT_MSG e1 s text x msg args p ∧
    ((x p.mem).1 = false →
      ∃ f, prettyFunctionText e1 s = some f ∧
        OSL_DASSERT e1 s text x p =
          some (.aborted ⟨(x p.mem).2, p.stderr ++ [diagnostic s f text ".\n"]⟩) ∧
        ∀ r, render msg (args (x p.mem).2).1 = some r →
          OSL_DASSERT_MSG e1 s text x msg args p =
            some (.aborted ⟨(args (x p.mem).2).2,
              p.stderr ++ [diagnostic s f text (": " ++ r ++ "\n")]⟩)) := by
  obtain ⟨_, _, _, _, _, _, _, _, h9, h10⟩ := resolve_bindings e e1 h
  obtain ⟨hd, hdm⟩ := OSL_DASSERT_debug e e1 h hn s text x msg args p
  rw [hn] at h9 h10
  refine ⟨h9, h10, hd, hdm, fun hx => ?_⟩
  obtain ⟨f, hf, ha⟩ := OSL_ASSERT_false e e1 h s text x p hx
  refine ⟨f, hf, ?_, fun r hr => ?_⟩
  · rw [hd, ha, hn]; rfl
  · obtain ⟨g, hg, hm⟩ := OSL_ASSERT_MSG_false e e1 h s text x msg args p r hx hr
    have hfg : g = f := Option.some.inj (hg.symm.trans hf)
    rw [hdm, hm, hn, hfg]; rfl

/-- Witness for C16: a failing debug-only check in the C++17 debug build. -/
theorem debug_dassert_is_assert_witness :
    resolve cxx17 = .ok (resolved cxx17) ∧ cxx17.NDEBUG = false ∧
    OSL_DASSERT (resolved cxx17) sampleSite "n > 0" countingFalse freshProc =
      OSL_ASSERT (resolved cxx17) sampleSite "n > 0" countingFalse freshProc ∧
    OSL_DASSERT_MSG (resolved cxx17) sampleSite "n > 0" countingFalse "value was %d" fiveArg
        freshProc =
      OSL_ASSERT_MSG (resolved cxx17) sampleSite "n > 0" countingFalse "value was %d" fiveArg
        freshProc :=
  ⟨rfl, rfl,
    (debug_dassert_is_assert cxx17 (resolved cxx17) rfl rfl sampleSite "n > 0" countingFalse
      "value was %d" fiveArg freshProc).2.2.1,
    (debug_dassert_is_assert cxx17 (resolved cxx17) rfl rfl sampleSite "n > 0" countingFalse
      "value was %d" fiveArg freshProc).2.2.2.1⟩

/-- C19.  `OSL_ABORT_IF_DEBUG` is `abort()` and the debug-only checks are the
plain checks under the same condition, `NDEBUG` not defined.  Hence an
invocation of `OSL_DASSERT` or `OSL_DASSERT_MSG` writes a diagnostic if and only
if it aborts the process, in either build mode and for every condition (the
message being a well-formed format for its arguments whenever it is printed);
whereas `OSL_ASSERT` with a false condition in a release build writes a
diagnostic and goes on. -/
theorem dassert_reports_iff_aborts {σ : Type} (e e1 : Env) (h : resolve e = .ok e1)
    (s : Site) (text : String) (x : Cond σ) (msg : String) (args : VarArgs σ) (p : Proc σ)
    (hr : (x p.mem).1 = false → e.NDEBUG = false →
      ∃ r, render msg (args (x p.mem).2).1 = some r) :
    (e1.OSL_ABORT_IF_DEBUG = some abortCall ↔ e.NDEBUG = false) ∧
    (e1.OSL_DASSERT = some (obj ["OSL_ASSERT"]) ↔ e.NDEBUG = false) ∧
    (e1.OSL_DASSERT_MSG = some (obj ["OSL_ASSERT_MSG"]) ↔ e.NDEBUG = false) ∧
    (∃ o, OSL_DASSERT e1 s text x p = some o ∧
      (o.proc.stderr ≠ p.stderr ↔ o.isAborted = true)) ∧
    (∃ o, OSL_DASSERT_MSG e1 s text x msg args p = some o ∧
      (o.proc.stderr ≠ p.stderr ↔ o.isAborted = true)) ∧
    (e.NDEBUG = true → (x p.mem).1 = false →
      ∃ o, OSL_ASSERT e1 s text x p = some o ∧ o.proc.stderr ≠ p.stderr ∧
        o.isAborted = false) := by
  obtain ⟨_, _, _, _, _, h6, _, _, h9, h10⟩ := resolve_bindings e e1 h
  refine ⟨?_, ?_, ?_, ?_, ?_, ?_⟩
  · rw [h6]; cases e.NDEBUG <;> simp [abortCall, voidZero, obj]
  · rw [h9]; cases e.NDEBUG <;> simp [fn, obj]
  · rw [h10]; cases e.NDEBUG <;> simp [fn, obj]
  · cases hn : e.NDEBUG with
    | true =>
      exact ⟨_, (OSL_DASSERT_release e e1 h hn s text x msg args p).1, by
        simp [Outcome.proc, Outcome.isAborted]⟩
    | false =>
      rw [(OSL_DASSERT_debug e e1 h hn s text x msg args p).1]
      cases hx : (x p.mem).1 with
      | true =>
        exact ⟨_, (OSL_ASSERT_true e e1 h s text x msg args p hx).1, by
          simp [Outcome.proc, Outcome.isAborted]⟩
      | false =>
        obtain ⟨f, _, ha⟩ := OSL_ASSERT_false e e1 h s text x p hx
        rw [hn] at ha
        exact ⟨_, ha, by simp [Outcome.proc, Outcome.isAborted]⟩
  · cases hn : e.NDEBUG with
    | true =>
      exact ⟨_, (OSL_DASSERT_release e e1 h hn s text x msg args p).2, by
        simp [Outcome.proc, Outcome.isAborted]⟩
    | false =>
      rw [(OSL_DASSERT_debug e e1 h hn s text x msg args p).2]
      cases hx : (x p.mem).1 with
      | true =>
        exact ⟨_, (OSL_ASSERT_true e e1 h s text x msg args p hx).2, by
          simp [Outcome.proc, Outcome.isAborted]⟩
      | false =>
        obtain ⟨r, hrr⟩ := hr hx hn
        obtain ⟨f, _, ha⟩ := OSL_ASSERT_MSG_false e e1 h s text x msg args p r hx hrr
        rw [hn] at ha
        exact ⟨_, ha, by simp [Outcome.proc, Outcome.isAborted]⟩
  · intro hn hx
    obtain ⟨f, _, ha⟩ := OSL_ASSERT_false e e1 h s text x p hx
    rw [hn] at ha
    exact ⟨_, ha, by simp [Outcome.proc, Outcome.isAborted], by simp [Outcome.isAborted]⟩

/-- Witness for C19: a failing check with message `"value was %d"` and argument
`5`, as a debug-only check in the C++17 debug build and as a plain check in the
C++17 release build. -/
theorem dassert_reports_iff_aborts_witness :
    resolve cxx17 = .ok (resolved cxx17) ∧
    resolve cxx17Release = .ok (resolved cxx17Release) ∧
    ((countingFalse freshProc.mem).1 = false → cxx17.NDEBUG = false →
      ∃ r, render "value was %d" (fiveArg (countingFalse freshProc.mem).2).1 = some r) ∧
    (∃ o, OSL_DASSERT_MSG (resolved cxx17) sampleSite "n > 0" countingFalse
        "value was %d" fiveArg freshProc = some o ∧
      (o.proc.stderr ≠ freshProc.stderr ↔ o.isAborted = true)) ∧
    (cxx17Release.NDEBUG = true → (countingFalse freshProc.mem).1 = false →
      ∃ o, OSL_ASSERT (resolved cxx17Release) sampleSite "n > 0" countingFalse freshProc =
          some o ∧ o.proc.stderr ≠ freshProc.stderr ∧ o.isAborted = false) :=
  ⟨rfl, rfl, fun _ _ => ⟨"value was 5", by decide⟩,
    (dassert_reports_iff_aborts cxx17 (resolved cxx17) rfl sampleSite "n > 0"
      countingFalse "value was %d" fiveArg freshProc
      (fun _ _ => ⟨"value was 5", by decide⟩)).2.2.2.2.1,
    (dassert_reports_iff_aborts cxx17Release (resolved cxx17Release) rfl sampleSite "n > 0"
      countingFalse "value was %d" fiveArg freshProc
      (fun _ _ => ⟨"value was 5", by decide⟩)).2.2.2.2.2⟩

end OSL
